import Mathlib

/-!
Shallow embedding of the staging-job subsystem of the stagecraft backend
(`backend/app/routes/staging.py`, `backend/app/routes/images.py`,
`backend/app/services/rate_limiter.py`, `backend/app/services/image_storage.py`,
`backend/app/services/ai_service.py`, `backend/app/services/tasks.py`,
`backend/app/models/staging.py`).

Modelling conventions:
* Machine state (job rows, Redis blobs, Redis quota counters) is passed
  explicitly through every handler.
* Image bytes are abstracted to what `PIL.Image.open` would decode from them:
  either a decoded image (width, height, mode) or garbage that makes
  `Image.open` raise (carrying the message of the raised exception).
  Base64 transport encoding inside Redis is abstracted away (it is a
  bijection and no claim distinguishes encoded from raw bytes); the
  base64-encoded database columns `original_image_data` / `staged_image_data`
  are kept as `Option String` exactly as in the model, and `serve_image`
  takes the base64 decoder as an explicit partial function.
* External nondeterminism is passed in as oracles: the Gemini gateway call
  (`_generate_staged_image_sync`, which catches every internal exception and
  returns `None`) is a function `DecodedImage -> Option DecodedImage`; Redis
  write failures of `store_image` are a per-job boolean; unexpected
  exceptions inside the executor are an optional (site, message) pair, where
  the sites are the statement positions of `tasks.py` at which an exception
  can be raised after the job row was fetched.
* Redis TTL expiry is modelled as absence from the store: an expired blob is
  indistinguishable from one never written, exactly as the source treats it.
* Error detail strings are reproduced from the source, except that English
  contractions are expanded (no ASCII apostrophes) and f-string
  interpolations are rendered with explicit concatenation.
* Wall-clock readings (`time.time`, `datetime.now`) enter as parameters
  (`processing_time`, `now`).
-/

namespace Stagecraft

/-- Job status column; the source only ever writes the three literals
`"processing"`, `"completed"`, `"failed"`. -/
inductive Status where
  | processing
  | completed
  | failed
deriving DecidableEq, Repr

/-- What `PIL.Image.open` yields on decodable bytes: size and color mode
(`app/services/ai_service.py`). -/
structure DecodedImage where
  width : Nat
  height : Nat
  mode : String
deriving DecidableEq, Repr

/-- Raw image bytes, abstracted to their decoding behaviour. `garbage msg`
stands for bytes on which `Image.open` raises an exception whose `str` is
`msg`. -/
inductive Bytes where
  | img (d : DecodedImage)
  | garbage (msg : String)
deriving DecidableEq, Repr

/-- One row of the `stagings` table (`app/models/staging.py`). Fields not
touched by any claim (user_id, project_id, property_name) are omitted. -/
structure Staging where
  id : String
  status : Status := .processing
  original_image_path : String
  original_image_data : Option String := none
  style : String := "default"
  room_type : Option String := none
  quality_mode : Option String := some "premium"
  staged_image_path : Option String := none
  staged_image_data : Option String := none
  processing_time_ms : Option Nat := none
  quality_score : Option ℚ := none
  architectural_integrity : Option Bool := none
  completed_at : Option Nat := none
  error_message : Option String := none
  batch_id : Option String := none
deriving DecidableEq, Repr

/-- Redis-backed image blob store (`app/services/image_storage.py`), keyed by
`(image_type, staging_id)` as in `_get_key`. Expired entries are simply
absent. -/
structure ImageStorage where
  blobs : List ((String × String) × Bytes) := []
deriving DecidableEq, Repr

/-- `ImageStorage.store_image`: on a Redis failure (the `except` branch) it
returns `False` and nothing is written; `ok` is the oracle for that
failure. -/
def ImageStorage.store_image (s : ImageStorage) (ok : Bool) (staging_id : String)
    (image_bytes : Bytes) (image_type : String) : ImageStorage × Bool :=
  if ok then ({ blobs := ((image_type, staging_id), image_bytes) :: s.blobs }, true)
  else (s, false)

/-- `ImageStorage.get_image`: `None` when the key is missing or expired. -/
def ImageStorage.get_image (s : ImageStorage) (staging_id : String)
    (image_type : String) : Option Bytes :=
  (s.blobs.find? (fun kv => decide (kv.1 = (image_type, staging_id)))).map (·.2)

/-- `USER_DAILY_LIMIT` from `app/services/rate_limiter.py`. -/
def USER_DAILY_LIMIT : Nat := 10

/-- `GLOBAL_DAILY_LIMIT` from `app/services/rate_limiter.py`. -/
def GLOBAL_DAILY_LIMIT : Nat := 30

/-- Today's Redis quota counters: one per client IP plus the global one
(the date component of the key is fixed, since every claim is about a single
day). -/
structure Counters where
  userCounts : List (String × Nat) := []
  globalCount : Nat := 0
deriving DecidableEq, Repr

/-- Value of the per-IP counter, 0 when the key is absent (matches
`int(current) if current else 0`). -/
def Counters.userCount (c : Counters) (client_ip : String) : Nat :=
  match c.userCounts.find? (fun kv => decide (kv.1 = client_ip)) with
  | some kv => kv.2
  | none => 0

/-- `RateLimiter.check_user_limit`: `(allowed, remaining)`. -/
def Counters.check_user_limit (c : Counters) (client_ip : String) : Bool × Nat :=
  let current_count := c.userCount client_ip
  if current_count ≥ USER_DAILY_LIMIT then (false, 0)
  else (true, USER_DAILY_LIMIT - current_count)

/-- `RateLimiter.check_global_limit`: `(allowed, remaining)`. -/
def Counters.check_global_limit (c : Counters) : Bool × Nat :=
  if c.globalCount ≥ GLOBAL_DAILY_LIMIT then (false, 0)
  else (true, GLOBAL_DAILY_LIMIT - c.globalCount)

/-- Helper for `increment_usage`: `INCR` on the per-IP key. -/
def bumpAssoc : List (String × Nat) → String → List (String × Nat)
  | [], client_ip => [(client_ip, 1)]
  | (k, v) :: rest, client_ip =>
      if k = client_ip then (k, v + 1) :: rest
      else (k, v) :: bumpAssoc rest client_ip

/-- `RateLimiter.increment_usage`: increments both the per-IP and the global
counter (one pipelined unit). -/
def Counters.increment_usage (c : Counters) (client_ip : String) : Counters :=
  { userCounts := bumpAssoc c.userCounts client_ip
    globalCount := c.globalCount + 1 }

/-- `increment_usage` applied `n` times, as the per-image loop at the end of
`stage_batch` does. -/
def Counters.incrementN (c : Counters) (client_ip : String) : Nat → Counters
  | 0 => c
  | n + 1 => (c.incrementN client_ip n).increment_usage client_ip

/-- Whole shared state: the `stagings` table, the Redis blob store and the
Redis quota counters. -/
structure SysState where
  db : List Staging := []
  images : ImageStorage := {}
  counters : Counters := {}
deriving DecidableEq, Repr

/-- An `HTTPException` as raised by the routes. -/
structure HTTPError where
  status_code : Nat
  detail : String
deriving DecidableEq, Repr

/-- Observable side-effect events emitted by a handler, in program order;
used to state the temporal claims (increments only after the commit, no
storage read before rejection). -/
inductive Event where
  | storeBlob (staging_id : String) (image_type : String)
  | commit
  | dispatch (staging_id : String)
  | increment
  | dbRead
deriving DecidableEq, Repr

/-- Checker for "every increment event is preceded by a commit event": `seen`
records whether a commit has occurred yet. -/
def incsAfterCommit : Bool → List Event → Bool
  | _, [] => true
  | seen, .increment :: rest => seen && incsAfterCommit seen rest
  | _, .commit :: rest => incsAfterCommit true rest
  | seen, _ :: rest => incsAfterCommit seen rest

/-- `check_rate_limits` from `app/routes/staging.py`: global limit, then user
limit, then the two batch-headroom checks, in source order. -/
def check_rate_limits (c : Counters) (client_ip : String) (image_count : Nat) :
    Except HTTPError Unit :=
  let g := c.check_global_limit
  if ¬ g.1 then
    .error ⟨429, "Daily limit reached. This free demo allows 30 generations per day. Please try again tomorrow!"⟩
  else
    let u := c.check_user_limit client_ip
    if ¬ u.1 then
      .error ⟨429, "You have reached your daily limit of 10 free generations. Please try again tomorrow!"⟩
    else if image_count > u.2 then
      .error ⟨429, "You only have " ++ toString u.2 ++ " generations remaining today. Please reduce your batch size."⟩
    else if image_count > g.2 then
      .error ⟨429, "Only " ++ toString g.2 ++ " generations remaining for today's demo. Please reduce your batch size."⟩
    else
      .ok ()

/-- `settings.max_upload_size` (`app/core/config.py`). -/
def max_upload_size : Nat := 10485760

/-- Python `str.startswith`, modelled on character lists. -/
def str_startswith (s pre : String) : Bool :=
  pre.toList.isPrefixOf s.toList

/-- Python `str.lower` on ASCII filenames, modelled on character lists. -/
def str_toLower (s : String) : String :=
  String.mk (s.toList.map Char.toLower)

/-- An `UploadFile` as the routes see it. -/
structure Upload where
  filename : String
  content_type : String
  size : Nat
  content : Bytes
deriving DecidableEq, Repr

/-- Extension part (with the dot) of `os.path.splitext` on a plain filename:
the suffix from the last dot, unless every character before that dot is
itself a dot. -/
def splitext_ext (filename : String) : String :=
  let cs := filename.toList
  match ((List.range cs.length).filter (fun i => cs.getD i ' ' = '.')).getLast? with
  | none => ""
  | some i =>
      if (cs.take i).all (fun c => c = '.') then ""
      else String.mk (cs.drop i)

/-- Response body of `POST /stage` (the `task_id` field, a Celery handle, is
omitted). -/
structure StageResponse where
  id : String
  status : String
  original_image_url : String
  style : String
  room_type : String
  quality_mode : String
  estimated_time_seconds : Nat
deriving DecidableEq, Repr

/-- `stage_room` route handler (`POST /stage`). `staging_id` stands for the
`uuid.uuid4()` draw and `blobOk` for Redis availability in `store_image`.
Metadata storage (`store_image_metadata`) is omitted: no claim reads it. -/
def stage_room (st : SysState) (client_ip : String) (image : Upload)
    (room_type : Option String) (quality_mode : String) (staging_id : String)
    (blobOk : String → Bool) : SysState × List Event × Except HTTPError StageResponse :=
  match check_rate_limits st.counters client_ip 1 with
  | .error e => (st, [], .error e)
  | .ok _ =>
    if ¬ str_startswith image.content_type "image/" then
      (st, [], .error ⟨400, "File must be an image"⟩)
    else if image.size > max_upload_size then
      (st, [], .error ⟨400, "File too large"⟩)
    else
      let file_extension := if splitext_ext image.filename = "" then ".jpg" else splitext_ext image.filename
      let original_filename := "original_" ++ staging_id ++ file_extension
      match st.images.store_image (blobOk staging_id) staging_id image.content "original" with
      | (_, false) => (st, [], .error ⟨500, "Failed to store image"⟩)
      | (imgs, true) =>
        let staging : Staging :=
          { id := staging_id
            original_image_path := original_filename
            room_type := room_type
            quality_mode := some quality_mode
            status := .processing }
        let st1 : SysState := { st with images := imgs, db := st.db ++ [staging] }
        let st2 : SysState := { st1 with counters := st1.counters.increment_usage client_ip }
        (st2,
         [.storeBlob staging_id "original", .commit, .dispatch staging_id, .increment],
         .ok { id := staging_id
               status := "processing"
               original_image_url := "/api/images/" ++ original_filename
               style := "default"
               room_type := room_type.getD "auto-detected"
               quality_mode := quality_mode
               estimated_time_seconds := 25 })

/-- The per-file validation loop of `stage_batch` (content type then size,
first offender raises). -/
def validate_uploads : List Upload → Except HTTPError Unit
  | [] => .ok ()
  | image :: rest =>
    if ¬ str_startswith image.content_type "image/" then
      .error ⟨400, "File " ++ image.filename ++ " must be an image"⟩
    else if image.size > max_upload_size then
      .error ⟨400, "File " ++ image.filename ++ " too large"⟩
    else validate_uploads rest

/-- The per-image loop of `stage_batch`: stores each original blob and builds
the pending (not yet committed) rows. On a storage failure the loop aborts
with the 500 error; blobs already written stay written, pending rows are
discarded with the session. Each `(Upload, String)` pair carries the
`uuid.uuid4()` draw for that image. -/
def stage_batch_loop (blobOk : String → Bool) (quality_mode : String)
    (room_types : List String) (batch_id : String) :
    List (Upload × String) → Nat → ImageStorage →
    ImageStorage × List Staging × List Event × Option HTTPError
  | [], _, imgs => (imgs, [], [], none)
  | (image, staging_id) :: rest, i, imgs =>
    let room_type := room_types[i]?
    let file_extension := if splitext_ext image.filename = "" then ".jpg" else splitext_ext image.filename
    let original_filename := "original_" ++ staging_id ++ file_extension
    match imgs.store_image (blobOk staging_id) staging_id image.content "original" with
    | (_, false) => (imgs, [], [], some ⟨500, "Failed to store image " ++ image.filename⟩)
    | (imgs1, true) =>
      let r := stage_batch_loop blobOk quality_mode room_types batch_id rest (i + 1) imgs1
      (r.1,
       ({ id := staging_id
          original_image_path := original_filename
          room_type := room_type
          quality_mode := some quality_mode
          status := .processing
          batch_id := some batch_id } : Staging) :: r.2.1,
       .storeBlob staging_id "original" :: r.2.2.1,
       r.2.2.2)

/-- Response body of `POST /stage-batch` (per-item views and the group task
id are omitted: no claim reads them). -/
structure BatchResponse where
  batch_id : String
  total_images : Nat
  estimated_time_seconds : Nat
deriving DecidableEq, Repr

/-- `stage_batch` route handler (`POST /stage-batch`), with the source's
control flow: rate limits on the batch size first, then the size-window
checks, then file validation, then the store-and-add loop, one commit, one
dispatch per job, one increment per image. -/
def stage_batch (st : SysState) (client_ip : String) (images : List (Upload × String))
    (room_types : List String) (quality_mode : String) (batch_id : String)
    (blobOk : String → Bool) : SysState × List Event × Except HTTPError BatchResponse :=
  match check_rate_limits st.counters client_ip images.length with
  | .error e => (st, [], .error e)
  | .ok _ =>
    if images.length > 10 then
      (st, [], .error ⟨400, "Maximum 10 images allowed per batch"⟩)
    else if images.length = 0 then
      (st, [], .error ⟨400, "At least one image required"⟩)
    else
      match validate_uploads (images.map (·.1)) with
      | .error e => (st, [], .error e)
      | .ok _ =>
        let L := stage_batch_loop blobOk quality_mode room_types batch_id images 0 st.images
        match L.2.2.2 with
        | some e => ({ st with images := L.1 }, L.2.2.1, .error e)
        | none =>
          let st1 : SysState := { st with images := L.1, db := st.db ++ L.2.1 }
          let st2 : SysState := { st1 with counters := st1.counters.incrementN client_ip images.length }
          (st2,
           L.2.2.1 ++ [.commit] ++ images.map (fun p => .dispatch p.2)
               ++ List.replicate images.length .increment,
           .ok { batch_id := batch_id
                 total_images := images.length
                 estimated_time_seconds := 25 * images.length })

/-- Response body of `GET /batch/batch_id` (the per-item `stagings` array is
omitted: the claim is about the aggregate status and the four counts). -/
structure BatchStatusResponse where
  batch_id : String
  status : String
  total : Nat
  completed : Nat
  failed : Nat
  processing : Nat
deriving DecidableEq, Repr

/-- `get_batch_status` route handler (`GET /batch/batch_id`). -/
def get_batch_status (db : List Staging) (batch_id : String) :
    Except HTTPError BatchStatusResponse :=
  let stagings := db.filter (fun s => decide (s.batch_id = some batch_id))
  if stagings.isEmpty then .error ⟨404, "Batch not found"⟩
  else
    let total := stagings.length
    let completed := stagings.countP (fun s => decide (s.status = .completed))
    let failed := stagings.countP (fun s => decide (s.status = .failed))
    let processing := stagings.countP (fun s => decide (s.status = .processing))
    let batch_status :=
      if completed = total then "completed"
      else if failed = total then "failed"
      else if failed > 0 ∨ completed > 0 then "partial"
      else "processing"
    .ok { batch_id := batch_id
          status := batch_status
          total := total
          completed := completed
          failed := failed
          processing := processing }

/-- Result of `_validate_image` (the `result` dict in
`app/services/ai_service.py`). -/
structure ValidationResult where
  is_valid : Bool
  reason : String
deriving DecidableEq, Repr

/-- `AIService._validate_image`: 512x512 minimum, RGB/RGBA mode. -/
def AIService.validate_image (image : DecodedImage) : ValidationResult :=
  if image.width < 512 ∨ image.height < 512 then
    { is_valid := false
      reason := "Image resolution too low. Please use images with at least 512x512 pixels." }
  else if ¬ (image.mode = "RGB" ∨ image.mode = "RGBA") then
    { is_valid := false
      reason := "Invalid image format. Please use RGB images." }
  else
    { is_valid := true, reason := "" }

/-- `AIService._preprocess_image`: convert to RGB when needed. -/
def AIService.preprocess_image (image : DecodedImage) : DecodedImage :=
  if image.mode ≠ "RGB" then { image with mode := "RGB" } else image

/-- Outcome quadruple of `stage_room_from_bytes_sync`:
`(success, staged_image_bytes, quality_score, error_message)`. -/
structure StageOutcome where
  success : Bool
  staged_bytes : Option Bytes
  quality_score : Option ℚ
  error_message : Option String
deriving DecidableEq, Repr

/-- `AIService.stage_room_from_bytes_sync`. `configured` is whether a Google
API key is present (`self.client`), `gw` is the Generation Gateway oracle
standing for `_generate_staged_image_sync` (which catches every internal
exception and returns `None`, so `Option` captures it exactly). The second
component counts gateway invocations. The JPEG re-encoding of
`_image_to_bytes` is abstracted: the staged image travels as decoded
content. -/
def AIService.stage_room_from_bytes_sync (configured : Bool)
    (gw : DecodedImage → Option DecodedImage) (image_bytes : Bytes) :
    StageOutcome × Nat :=
  match image_bytes with
  | .garbage msg =>
    ({ success := false, staged_bytes := none, quality_score := none
       error_message := some ("Error during staging: " ++ msg) }, 0)
  | .img image =>
    let validation_result := AIService.validate_image image
    if ¬ validation_result.is_valid then
      ({ success := false, staged_bytes := none, quality_score := none
         error_message := some validation_result.reason }, 0)
    else
      let processed_image := AIService.preprocess_image image
      if ¬ configured then
        ({ success := false, staged_bytes := none, quality_score := none
           error_message := some "AI service not configured" }, 0)
      else
        match gw processed_image with
        | some staged_image =>
          ({ success := true, staged_bytes := some (.img staged_image)
             quality_score := some (0.85 : ℚ), error_message := none }, 1)
        | none =>
          ({ success := false, staged_bytes := none, quality_score := none
             error_message := some "AI failed to generate staged image. The image may have been rejected by content filters. Try a different photo." }, 1)

/-- Modelled from the spec: `AIService.stage_room` is invoked by the executor
(`tasks.py` line 48) but absent from `ai_service.py` in the source tree; per
section 4.4 of the spec it loads the original bytes from the Image Blob
Store (missing blob: failure, step 1), runs the local pipeline
(`stage_room_from_bytes_sync`, steps 2 and 3) and on success persists the
staged bytes under the `staged` kind and hands back the staged filename
reference and the placeholder quality score (step 4). Returns the updated
blob store, the `(success, result, quality_score)` triple destructured by
`tasks.py`, and the gateway invocation count. -/
def AIService.stage_room (configured : Bool) (gw : DecodedImage → Option DecodedImage)
    (imgs : ImageStorage) (staging_id : String) :
    ImageStorage × (Bool × String × Option ℚ) × Nat :=
  match imgs.get_image staging_id "original" with
  | none => (imgs, (false, "Original image not found", none), 0)
  | some image_bytes =>
    match AIService.stage_room_from_bytes_sync configured gw image_bytes with
    | (o, g) =>
      if o.success = true then
        match o.staged_bytes with
        | some staged =>
          let staged_filename := "staged_" ++ staging_id ++ ".jpg"
          ((imgs.store_image true staging_id staged "staged").1,
           (true, staged_filename, o.quality_score), g)
        | none => (imgs, (false, "AI returned no image data", none), g)
      else
        (imgs, (false, o.error_message.getD "", none), g)

/-- Modelled from the spec: `AIService.check_architectural_integrity` is
invoked by the executor (`tasks.py` line 66) but absent from
`ai_service.py`; per section 1 of the spec, architectural integrity is a
hard-coded placeholder value, not computed. -/
def AIService.check_architectural_integrity (_staging_id : String)
    (_staged_filename : String) : Bool :=
  true

/-- Statement positions inside the `try` body of `process_staging`
(`tasks.py`) at which an unexpected exception can be raised once the job row
has been fetched:
* `beforeGateway` — the progress updates / `time.sleep` between the
  `processing` commit (line 26) and the gateway call (line 48);
* `duringGateway` — the `asyncio.run(ai_service.stage_room(...))` call
  itself raising instead of returning (lines 47 to 52);
* `duringFinalize` — the `check_architectural_integrity` call site
  (line 66), after the success-branch writes of `status`,
  `staged_image_path`, `processing_time_ms` and `quality_score`
  (lines 62 to 65) but before `completed_at` (line 69) and the commit
  (line 71). -/
inductive ExcSite where
  | beforeGateway
  | duringGateway
  | duringFinalize
deriving DecidableEq, Repr

/-- Return dict of the Celery task (only the fields the claims read). -/
structure TaskResult where
  status : String
  error : Option String
deriving DecidableEq, Repr

/-- In-place mutation and commit of the row fetched by
`db.query(Staging).filter(Staging.id == staging_id).first()`. -/
def updateJob (db : List Staging) (staging_id : String) (f : Staging → Staging) :
    List Staging :=
  db.map (fun s => if s.id = staging_id then f s else s)

/-- First row with the given id, as the SQLAlchemy query returns it. -/
def findJob (db : List Staging) (staging_id : String) : Option Staging :=
  db.find? (fun s => decide (s.id = staging_id))

/-- `process_staging` (`app/services/tasks.py`). `exc` is the
unexpected-exception oracle: `some (site, m)` means an exception whose `str`
is `m` is raised if control reaches that site; the `except` handler then
sets `status = "failed"` and `error_message = m` on the fetched row and
commits, which also flushes any dirty attribute writes made before the
exception. `processing_time` and `now` stand for the wall-clock readings.
The third component is the number of gateway invocations during this run. -/
def process_staging (st : SysState) (staging_id : String) (configured : Bool)
    (gw : DecodedImage → Option DecodedImage) (exc : Option (ExcSite × String))
    (processing_time : Nat) (now : Nat) : SysState × TaskResult × Nat :=
  match findJob st.db staging_id with
  | none => (st, { status := "error", error := some "Staging not found" }, 0)
  | some _ =>
    let st1 : SysState :=
      { st with db := updateJob st.db staging_id (fun s => { s with status := .processing }) }
    match exc with
    | some (.beforeGateway, m) =>
      let db2 := updateJob st1.db staging_id
        (fun s => { s with status := .failed, error_message := some m })
      ({ st1 with db := db2 }, { status := "failed", error := some m }, 0)
    | some (.duringGateway, m) =>
      let db2 := updateJob st1.db staging_id
        (fun s => { s with status := .failed, error_message := some m })
      ({ st1 with db := db2 }, { status := "failed", error := some m }, 0)
    | _ =>
      match AIService.stage_room configured gw st1.images staging_id with
      | (imgs1, (true, result, quality_score), g) =>
        let st2 : SysState := { st1 with images := imgs1 }
        match exc with
        | some (.duringFinalize, m) =>
          let db2 := updateJob st2.db staging_id
            (fun s => { s with status := .failed, error_message := some m,
                               staged_image_path := some result,
                               processing_time_ms := some processing_time,
                               quality_score := quality_score })
          ({ st2 with db := db2 }, { status := "failed", error := some m }, g)
        | _ =>
          let integrity := AIService.check_architectural_integrity staging_id result
          let db2 := updateJob st2.db staging_id
            (fun s => { s with status := .completed,
                               staged_image_path := some result,
                               processing_time_ms := some processing_time,
                               quality_score := quality_score,
                               architectural_integrity := some integrity,
                               completed_at := some now })
          ({ st2 with db := db2 }, { status := "completed", error := none }, g)
      | (imgs1, (false, result, _), g) =>
        let st2 : SysState := { st1 with images := imgs1 }
        let db2 := updateJob st2.db staging_id
          (fun s => { s with status := .failed, error_message := some result,
                             processing_time_ms := some processing_time })
        ({ st2 with db := db2 }, { status := "failed", error := some result }, g)

/-- `allowed_extensions` in `app/routes/images.py`. -/
def allowed_extensions : List String := [".jpg", ".jpeg", ".png", ".webp"]

/-- Character class `[a-f0-9-]` of the `extract_staging_id` regex. -/
def isHexDash (c : Char) : Bool :=
  c.isDigit || (decide ('a' ≤ c) && decide (c ≤ 'f')) || c = '-'

/-- Character class `\w` of the `extract_staging_id` regex (ASCII reading). -/
def isWordChar (c : Char) : Bool :=
  c.isAlphanum || c = '_'

/-- `extract_staging_id`: match against the regex
`(original|staged)_([a-f0-9-]+)\.\w+` anchored at both ends. Since the dot
belongs to neither character class, a match is exactly a prefix, a nonempty
`[a-f0-9-]` run, one dot and a nonempty `\w` run to the end. -/
def extract_staging_id (filename : String) : Option String × Option String :=
  let go (image_type : String) (rest : List Char) : Option String × Option String :=
    let sid := rest.takeWhile isHexDash
    match rest.dropWhile isHexDash with
    | '.' :: ext =>
      if sid ≠ [] ∧ ext ≠ [] ∧ ext.all isWordChar then (some (String.mk sid), some image_type)
      else (none, none)
    | _ => (none, none)
  if str_startswith filename "original_" then go "original" (filename.toList.drop 9)
  else if str_startswith filename "staged_" then go "staged" (filename.toList.drop 7)
  else (none, none)

/-- Substring test on character lists (the Python `in` operator on
strings). -/
def listHasInfix (needle : List Char) : List Char → Bool
  | [] => needle.isEmpty
  | c :: rest => needle.isPrefixOf (c :: rest) || listHasInfix needle rest

/-- Successful response of `GET /images/filename`. -/
structure ImageResponse where
  content : Bytes
  media_type : String
deriving DecidableEq, Repr

/-- `serve_image` route handler (`GET /images/filename`). `b64decode` is the
base64 decoder applied to the database column (`None` standing for
`base64.b64decode` raising). Emits `.dbRead` when the `stagings` table is
queried, so the rejection-before-read claims are statable. -/
def serve_image (db : List Staging) (b64decode : String → Option Bytes)
    (filename : String) : List Event × Except HTTPError ImageResponse :=
  let file_ext := str_toLower (splitext_ext filename)
  if ¬ allowed_extensions.contains file_ext then
    ([], .error ⟨400, "Invalid file type"⟩)
  else if listHasInfix "..".toList filename.toList ∨ filename.toList.contains '/'
      ∨ filename.toList.contains '\\' then
    ([], .error ⟨400, "Invalid filename"⟩)
  else
    match extract_staging_id filename with
    | (some staging_id, some image_type) =>
      match findJob db staging_id with
      | none => ([.dbRead], .error ⟨404, "Image not found"⟩)
      | some staging =>
        let image_data_b64 :=
          if image_type = "original" then staging.original_image_data
          else staging.staged_image_data
        match image_data_b64 with
        | none => ([.dbRead], .error ⟨404, "Image not found"⟩)
        | some b64 =>
          if b64 = "" then ([.dbRead], .error ⟨404, "Image not found"⟩)
          else
            match b64decode b64 with
            | none => ([.dbRead], .error ⟨500, "Failed to decode image"⟩)
            | some image_bytes =>
              let content_type :=
                if file_ext = ".jpg" then "image/jpeg" else "image/" ++ file_ext.drop 1
              ([.dbRead], .ok { content := image_bytes, media_type := content_type })
    | _ => ([], .error ⟨400, "Invalid filename format"⟩)

/-- Per-row invariant claimed by the spec (section 3): staged reference and
completion timestamp only on `completed`, failure reason exactly on `failed`
and non-empty. -/
def JobInvariant (j : Staging) : Prop :=
  (j.status ≠ .completed → j.staged_image_path = none ∧ j.completed_at = none) ∧
  (j.status ≠ .failed → j.error_message = none) ∧
  (j.status = .failed → j.error_message ≠ none ∧ j.error_message ≠ some "")

instance (j : Staging) : Decidable (JobInvariant j) := by
  unfold JobInvariant
  infer_instance

/-- No row carries inline image data in the `original_image_data` /
`staged_image_data` columns. -/
def NoInlineData (db : List Staging) : Prop :=
  ∀ j ∈ db, j.original_image_data = none ∧ j.staged_image_data = none

instance (db : List Staging) : Decidable (NoInlineData db) := by
  unfold NoInlineData
  infer_instance

/-! Helper lemmas. -/

theorem countP_status_sum (l : List Staging) :
    l.countP (fun s => decide (s.status = .completed)) +
      l.countP (fun s => decide (s.status = .failed)) +
        l.countP (fun s => decide (s.status = .processing)) = l.length := by
  induction l with
  | nil => simp
  | cons h t ih =>
    rcases hs : h.status <;> simp [List.countP_cons, hs] <;> omega

theorem batch_status_iffs (N c f : Nat) (hpos : 0 < N) (hsum : c + f ≤ N) :
    ((if c = N then "completed" else if f = N then "failed"
        else if f > 0 ∨ c > 0 then "partial" else "processing") = "completed" ↔ c = N) ∧
    ((if c = N then "completed" else if f = N then "failed"
        else if f > 0 ∨ c > 0 then "partial" else "processing") = "failed" ↔ f = N) ∧
    ((if c = N then "completed" else if f = N then "failed"
        else if f > 0 ∨ c > 0 then "partial" else "processing") = "processing" ↔ c = 0 ∧ f = 0) ∧
    ((if c = N then "completed" else if f = N then "failed"
        else if f > 0 ∨ c > 0 then "partial" else "processing") = "partial" ↔
      ¬ (c = N) ∧ ¬ (f = N) ∧ ¬ (c = 0 ∧ f = 0)) := by
  by_cases h1 : c = N
  · rw [if_pos h1]
    exact ⟨iff_of_true rfl h1, iff_of_false (by decide) (by omega),
      iff_of_false (by decide) (by omega), iff_of_false (by decide) (by omega)⟩
  · by_cases h2 : f = N
    · rw [if_neg h1, if_pos h2]
      exact ⟨iff_of_false (by decide) h1, iff_of_true rfl h2,
        iff_of_false (by decide) (by omega), iff_of_false (by decide) (by omega)⟩
    · by_cases h3 : f > 0 ∨ c > 0
      · rw [if_neg h1, if_neg h2, if_pos h3]
        exact ⟨iff_of_false (by decide) h1, iff_of_false (by decide) h2,
          iff_of_false (by decide) (by omega), iff_of_true rfl ⟨h1, h2, by omega⟩⟩
      · rw [if_neg h1, if_neg h2, if_neg h3]
        exact ⟨iff_of_false (by decide) (by omega), iff_of_false (by decide) (by omega),
          iff_of_true rfl (by omega), iff_of_false (by decide) (by omega)⟩

/-! Claim C1. -/

/-- C1: for every non-empty batch with N member jobs, c completed, f failed,
p processing, `get_batch_status` returns counts (N, c, f, p) and its status
is `completed` iff c = N, `failed` iff f = N, `processing` iff c = 0 and
f = 0, and `partial` otherwise. -/
theorem C1_batch_aggregation (db : List Staging) (batch_id : String)
    (h : db.filter (fun s => decide (s.batch_id = some batch_id)) ≠ []) :
    ∃ r, get_batch_status db batch_id = .ok r ∧
      (let ms := db.filter (fun s => decide (s.batch_id = some batch_id))
       let N := ms.length
       let c := ms.countP (fun s => decide (s.status = .completed))
       let f := ms.countP (fun s => decide (s.status = .failed))
       let p := ms.countP (fun s => decide (s.status = .processing))
       r.total = N ∧ r.completed = c ∧ r.failed = f ∧ r.processing = p ∧
       (r.status = "completed" ↔ c = N) ∧
       (r.status = "failed" ↔ f = N) ∧
       (r.status = "processing" ↔ c = 0 ∧ f = 0) ∧
       (r.status = "partial" ↔ ¬ (c = N) ∧ ¬ (f = N) ∧ ¬ (c = 0 ∧ f = 0))) := by
  have hne : (db.filter (fun s => decide (s.batch_id = some batch_id))).isEmpty = false := by
    cases hl : (db.filter (fun s => decide (s.batch_id = some batch_id))).isEmpty
    · rfl
    · exact absurd (List.isEmpty_iff.mp hl) h
  have hpos : 0 < (db.filter (fun s => decide (s.batch_id = some batch_id))).length :=
    List.length_pos.mpr h
  have hsum := countP_status_sum (db.filter (fun s => decide (s.batch_id = some batch_id)))
  have hcf : (db.filter (fun s => decide (s.batch_id = some batch_id))).countP
        (fun s => decide (s.status = Status.completed)) +
      (db.filter (fun s => decide (s.batch_id = some batch_id))).countP
        (fun s => decide (s.status = Status.failed)) ≤
      (db.filter (fun s => decide (s.batch_id = some batch_id))).length := by omega
  obtain ⟨i1, i2, i3, i4⟩ := batch_status_iffs _ _ _ hpos hcf
  simp only [get_batch_status]
  rw [hne]
  simp only [Bool.false_eq_true, if_false]
  exact ⟨_, rfl, rfl, rfl, rfl, rfl, i1, i2, i3, i4⟩

/-- C1 witness: a three-member batch with one completed, one failed, one
processing member aggregates to `partial` with counts (3, 1, 1, 1). -/
theorem C1_batch_aggregation_witness :
    (let db : List Staging :=
      [{ id := "a", original_image_path := "original_a.jpg", status := .completed,
         batch_id := some "B" },
       { id := "b", original_image_path := "original_b.jpg", status := .failed,
         batch_id := some "B" },
       { id := "c", original_image_path := "original_c.jpg", status := .processing,
         batch_id := some "B" }]
     db.filter (fun s => decide (s.batch_id = some "B")) ≠ []) ∧
    (let db : List Staging :=
      [{ id := "a", original_image_path := "original_a.jpg", status := .completed,
         batch_id := some "B" },
       { id := "b", original_image_path := "original_b.jpg", status := .failed,
         batch_id := some "B" },
       { id := "c", original_image_path := "original_c.jpg", status := .processing,
         batch_id := some "B" }]
     ∃ r, get_batch_status db "B" = .ok r ∧
      (let ms := db.filter (fun s => decide (s.batch_id = some "B"))
       let N := ms.length
       let c := ms.countP (fun s => decide (s.status = .completed))
       let f := ms.countP (fun s => decide (s.status = .failed))
       let p := ms.countP (fun s => decide (s.status = .processing))
       r.total = N ∧ r.completed = c ∧ r.failed = f ∧ r.processing = p ∧
       (r.status = "completed" ↔ c = N) ∧
       (r.status = "failed" ↔ f = N) ∧
       (r.status = "processing" ↔ c = 0 ∧ f = 0) ∧
       (r.status = "partial" ↔ ¬ (c = N) ∧ ¬ (f = N) ∧ ¬ (c = 0 ∧ f = 0)))) :=
  ⟨by decide, C1_batch_aggregation _ "B" (by decide)⟩

/-! Claim C2. -/

theorem check_rate_limits_denies (c : Counters) (client_ip : String) (k : Nat)
    (h : k > USER_DAILY_LIMIT - c.userCount client_ip ∨
         k > GLOBAL_DAILY_LIMIT - c.globalCount) :
    ∃ e, check_rate_limits c client_ip k = .error e ∧ e.status_code = 429 := by
  unfold check_rate_limits Counters.check_global_limit Counters.check_user_limit
  by_cases hg : c.globalCount ≥ GLOBAL_DAILY_LIMIT
  · simp [hg]
  · by_cases hu : c.userCount client_ip ≥ USER_DAILY_LIMIT
    · simp [hg, hu]
    · by_cases h3 : k > USER_DAILY_LIMIT - c.userCount client_ip
      · simp [hg, hu, h3]
      · have h4 : k > GLOBAL_DAILY_LIMIT - c.globalCount := by omega
        simp [hg, hu, h3, h4]

/-- C2: a batch whose size exceeds the remaining per-caller quota or the
remaining global quota is denied whole with a 429: the state (job rows,
blobs, both counters) is returned untouched and no side-effect event is
emitted, so zero jobs are created, zero blobs stored and neither counter
incremented. -/
theorem C2_batch_admission_denied (st : SysState) (client_ip : String)
    (images : List (Upload × String)) (room_types : List String)
    (quality_mode : String) (batch_id : String) (blobOk : String → Bool)
    (h : images.length > USER_DAILY_LIMIT - st.counters.userCount client_ip ∨
         images.length > GLOBAL_DAILY_LIMIT - st.counters.globalCount) :
    ∃ e, stage_batch st client_ip images room_types quality_mode batch_id blobOk
        = (st, [], .error e) ∧ e.status_code = 429 := by
  obtain ⟨e, he, hcode⟩ := check_rate_limits_denies st.counters client_ip images.length h
  exact ⟨e, by simp [stage_batch, he], hcode⟩

/-- C2 witness: with the per-caller counter at 9 (remaining quota 1), a
2-image batch is denied with state unchanged. -/
theorem C2_batch_admission_denied_witness :
    (let st : SysState := { counters := { userCounts := [("ip", 9)], globalCount := 9 } }
     (2 : Nat) > USER_DAILY_LIMIT - st.counters.userCount "ip" ∨
       (2 : Nat) > GLOBAL_DAILY_LIMIT - st.counters.globalCount) ∧
    (let st : SysState := { counters := { userCounts := [("ip", 9)], globalCount := 9 } }
     let up : Upload := { filename := "x.jpg", content_type := "image/jpeg", size := 10,
                          content := .img ⟨1024, 768, "RGB"⟩ }
     ∃ e, stage_batch st "ip" [(up, "a"), (up, "b")] [] "premium" "B" (fun _ => true)
        = (st, [], .error e) ∧ e.status_code = 429) :=
  ⟨by decide, C2_batch_admission_denied _ "ip" _ [] "premium" "B" (fun _ => true) (by decide)⟩

/-! Claim C3. -/

theorem incsAfterCommit_true (l : List Event) : incsAfterCommit true l = true := by
  induction l with
  | nil => rfl
  | cons e t ih => cases e <;> simp [incsAfterCommit, ih]

theorem incsAfterCommit_of_no_inc (evs : List Event)
    (h : ∀ e ∈ evs, e ≠ Event.increment) :
    ∀ b, incsAfterCommit b evs = true := by
  induction evs with
  | nil => intro b; rfl
  | cons e t ih =>
    intro b
    have ht : ∀ e ∈ t, e ≠ Event.increment := fun x hx => h x (List.mem_cons_of_mem _ hx)
    cases e with
    | increment => exact absurd rfl (h _ (List.mem_cons_self _ _))
    | commit => simpa [incsAfterCommit] using ih ht true
    | storeBlob sid ty => simpa [incsAfterCommit] using ih ht b
    | dispatch sid => simpa [incsAfterCommit] using ih ht b
    | dbRead => simpa [incsAfterCommit] using ih ht b

theorem incsAfterCommit_append_no_commit (xs : List Event)
    (h : ∀ e ∈ xs, e ≠ Event.increment ∧ e ≠ Event.commit) :
    ∀ (b : Bool) (rest : List Event),
      incsAfterCommit b (xs ++ rest) = incsAfterCommit b rest := by
  induction xs with
  | nil => intro b rest; rfl
  | cons e t ih =>
    intro b rest
    have ht : ∀ e ∈ t, e ≠ Event.increment ∧ e ≠ Event.commit :=
      fun x hx => h x (List.mem_cons_of_mem _ hx)
    have he := h e (List.mem_cons_self _ _)
    cases e with
    | increment => exact absurd rfl he.1
    | commit => exact absurd rfl he.2
    | storeBlob sid ty => simpa [incsAfterCommit] using ih ht b rest
    | dispatch sid => simpa [incsAfterCommit] using ih ht b rest
    | dbRead => simpa [incsAfterCommit] using ih ht b rest

theorem countP_inc_replicate (n : Nat) :
    (List.replicate n Event.increment).countP (fun e => decide (e = Event.increment)) = n := by
  induction n with
  | zero => rfl
  | succ k ih => simp [List.replicate_succ, List.countP_cons, ih]

theorem userCount_bumpAssoc (client_ip : String) (l : List (String × Nat)) :
    (Counters.userCount { userCounts := bumpAssoc l client_ip, globalCount := 0 } client_ip)
      = (Counters.userCount { userCounts := l, globalCount := 0 } client_ip) + 1 := by
  induction l with
  | nil => simp [Counters.userCount, bumpAssoc, List.find?]
  | cons kv t ih =>
    obtain ⟨k, v⟩ := kv
    by_cases hk : k = client_ip
    · subst hk
      simp [Counters.userCount, bumpAssoc, List.find?]
    · simpa [Counters.userCount, bumpAssoc, List.find?, hk] using ih

theorem increment_usage_userCount (c : Counters) (client_ip : String) :
    (c.increment_usage client_ip).userCount client_ip = c.userCount client_ip + 1 := by
  have := userCount_bumpAssoc client_ip c.userCounts
  simpa [Counters.increment_usage, Counters.userCount] using this

theorem incrementN_userCount (c : Counters) (client_ip : String) (n : Nat) :
    (c.incrementN client_ip n).userCount client_ip = c.userCount client_ip + n := by
  induction n with
  | zero => rfl
  | succ k ih =>
    simp [Counters.incrementN, increment_usage_userCount, ih]
    omega

theorem incrementN_globalCount (c : Counters) (client_ip : String) (n : Nat) :
    (c.incrementN client_ip n).globalCount = c.globalCount + n := by
  induction n with
  | zero => rfl
  | succ k ih =>
    simp [Counters.incrementN, Counters.increment_usage, ih]
    omega

theorem stage_batch_loop_evs (blobOk : String → Bool) (qm : String) (rts : List String)
    (bid : String) :
    ∀ (pairs : List (Upload × String)) (i : Nat) (imgs : ImageStorage),
      ∀ e ∈ (stage_batch_loop blobOk qm rts bid pairs i imgs).2.2.1,
        ∃ sid, e = Event.storeBlob sid "original" := by
  intro pairs
  induction pairs with
  | nil => intro i imgs e he; simp [stage_batch_loop] at he
  | cons p rest ih =>
    intro i imgs e he
    obtain ⟨image, staging_id⟩ := p
    simp only [stage_batch_loop] at he
    split at he
    · simp at he
    · rcases List.mem_cons.mp he with h1 | h2
      · exact ⟨staging_id, h1⟩
      · exact ih _ _ e h2

theorem stage_batch_loop_recs_length (blobOk : String → Bool) (qm : String)
    (rts : List String) (bid : String) :
    ∀ (pairs : List (Upload × String)) (i : Nat) (imgs : ImageStorage),
      (stage_batch_loop blobOk qm rts bid pairs i imgs).2.2.2 = none →
      (stage_batch_loop blobOk qm rts bid pairs i imgs).2.1.length = pairs.length := by
  intro pairs
  induction pairs with
  | nil => intro i imgs _; rfl
  | cons p rest ih =>
    intro i imgs herr
    obtain ⟨image, staging_id⟩ := p
    simp only [stage_batch_loop] at herr ⊢
    split at herr
    · simp at herr
    · simp only [List.length_cons]
      rw [ih _ _ herr]

theorem stage_batch_loop_recs_shape (blobOk : String → Bool) (qm : String)
    (rts : List String) (bid : String) :
    ∀ (pairs : List (Upload × String)) (i : Nat) (imgs : ImageStorage),
      ∀ r ∈ (stage_batch_loop blobOk qm rts bid pairs i imgs).2.1,
        r.status = .processing ∧ r.staged_image_path = none ∧ r.completed_at = none ∧
        r.error_message = none ∧ r.original_image_data = none ∧
        r.staged_image_data = none := by
  intro pairs
  induction pairs with
  | nil => intro i imgs r hr; simp [stage_batch_loop] at hr
  | cons p rest ih =>
    intro i imgs r hr
    obtain ⟨image, staging_id⟩ := p
    simp only [stage_batch_loop] at hr
    split at hr
    · simp at hr
    · rcases List.mem_cons.mp hr with h1 | h2
      · subst h1; exact ⟨rfl, rfl, rfl, rfl, rfl, rfl⟩
      · exact ih _ _ r h2

theorem stage_room_eq_denied {st : SysState} {client_ip : String} {image : Upload}
    {room_type : Option String} {quality_mode staging_id : String} {blobOk : String → Bool}
    {e : HTTPError} (hc : check_rate_limits st.counters client_ip 1 = .error e) :
    stage_room st client_ip image room_type quality_mode staging_id blobOk
      = (st, [], .error e) := by
  simp [stage_room, hc]

theorem stage_room_eq_badtype {st : SysState} {client_ip : String} {image : Upload}
    {room_type : Option String} {quality_mode staging_id : String} {blobOk : String → Bool}
    {u : Unit} (hc : check_rate_limits st.counters client_ip 1 = .ok u)
    (h1 : str_startswith image.content_type "image/" = false) :
    stage_room st client_ip image room_type quality_mode staging_id blobOk
      = (st, [], .error ⟨400, "File must be an image"⟩) := by
  simp [stage_room, hc, h1]

theorem stage_room_eq_toolarge {st : SysState} {client_ip : String} {image : Upload}
    {room_type : Option String} {quality_mode staging_id : String} {blobOk : String → Bool}
    {u : Unit} (hc : check_rate_limits st.counters client_ip 1 = .ok u)
    (h1 : str_startswith image.content_type "image/" = true)
    (h2 : image.size > max_upload_size) :
    stage_room st client_ip image room_type quality_mode staging_id blobOk
      = (st, [], .error ⟨400, "File too large"⟩) := by
  simp [stage_room, hc, h1, h2]

theorem stage_room_eq_storefail {st : SysState} {client_ip : String} {image : Upload}
    {room_type : Option String} {quality_mode staging_id : String} {blobOk : String → Bool}
    {u : Unit} (hc : check_rate_limits st.counters client_ip 1 = .ok u)
    (h1 : str_startswith image.content_type "image/" = true)
    (h2 : ¬ image.size > max_upload_size) (hb : blobOk staging_id = false) :
    stage_room st client_ip image room_type quality_mode staging_id blobOk
      = (st, [], .error ⟨500, "Failed to store image"⟩) := by
  simp [stage_room, hc, h1, h2, hb, ImageStorage.store_image]

theorem stage_room_eq_ok {st : SysState} {client_ip : String} {image : Upload}
    {room_type : Option String} {quality_mode staging_id : String} {blobOk : String → Bool}
    {u : Unit} (hc : check_rate_limits st.counters client_ip 1 = .ok u)
    (h1 : str_startswith image.content_type "image/" = true)
    (h2 : ¬ image.size > max_upload_size) (hb : blobOk staging_id = true) :
    stage_room st client_ip image room_type quality_mode staging_id blobOk
      = ({ db := st.db ++
            [{ id := staging_id
               original_image_path := "original_" ++ staging_id ++
                 (if splitext_ext image.filename = "" then ".jpg" else splitext_ext image.filename)
               room_type := room_type
               quality_mode := some quality_mode
               status := .processing }]
           images := { blobs := (("original", staging_id), image.content) :: st.images.blobs }
           counters := st.counters.increment_usage client_ip },
         [.storeBlob staging_id "original", .commit, .dispatch staging_id, .increment],
         .ok { id := staging_id
               status := "processing"
               original_image_url := "/api/images/" ++ ("original_" ++ staging_id ++
                 (if splitext_ext image.filename = "" then ".jpg" else splitext_ext image.filename))
               style := "default"
               room_type := room_type.getD "auto-detected"
               quality_mode := quality_mode
               estimated_time_seconds := 25 }) := by
  simp [stage_room, hc, h1, h2, hb, ImageStorage.store_image]

theorem stage_batch_eq_denied {st : SysState} {client_ip : String}
    {images : List (Upload × String)} {room_types : List String}
    {quality_mode batch_id : String} {blobOk : String → Bool} {e : HTTPError}
    (hc : check_rate_limits st.counters client_ip images.length = .error e) :
    stage_batch st client_ip images room_types quality_mode batch_id blobOk
      = (st, [], .error e) := by
  simp [stage_batch, hc]

theorem stage_batch_eq_toomany {st : SysState} {client_ip : String}
    {images : List (Upload × String)} {room_types : List String}
    {quality_mode batch_id : String} {blobOk : String → Bool} {u : Unit}
    (hc : check_rate_limits st.counters client_ip images.length = .ok u)
    (h10 : images.length > 10) :
    stage_batch st client_ip images room_types quality_mode batch_id blobOk
      = (st, [], .error ⟨400, "Maximum 10 images allowed per batch"⟩) := by
  simp [stage_batch, hc, h10]

theorem stage_batch_eq_empty {st : SysState} {client_ip : String}
    {images : List (Upload × String)} {room_types : List String}
    {quality_mode batch_id : String} {blobOk : String → Bool} {u : Unit}
    (hc : check_rate_limits st.counters client_ip images.length = .ok u)
    (h10 : ¬ images.length > 10) (h0 : images.length = 0) :
    stage_batch st client_ip images room_types quality_mode batch_id blobOk
      = (st, [], .error ⟨400, "At least one image required"⟩) := by
  simp only [stage_batch, hc]
  rw [if_neg h10, if_pos h0]

theorem stage_batch_eq_badfile {st : SysState} {client_ip : String}
    {images : List (Upload × String)} {room_types : List String}
    {quality_mode batch_id : String} {blobOk : String → Bool} {u : Unit} {e : HTTPError}
    (hc : check_rate_limits st.counters client_ip images.length = .ok u)
    (h10 : ¬ images.length > 10) (h0 : ¬ images.length = 0)
    (hv : validate_uploads (images.map (·.1)) = .error e) :
    stage_batch st client_ip images room_types quality_mode batch_id blobOk
      = (st, [], .error e) := by
  simp [stage_batch, hc, h10, h0, hv]

theorem stage_batch_eq_loopfail {st : SysState} {client_ip : String}
    {images : List (Upload × String)} {room_types : List String}
    {quality_mode batch_id : String} {blobOk : String → Bool} {u u2 : Unit} {e : HTTPError}
    (hc : check_rate_limits st.counters client_ip images.length = .ok u)
    (h10 : ¬ images.length > 10) (h0 : ¬ images.length = 0)
    (hv : validate_uploads (images.map (·.1)) = .ok u2)
    (hloop : (stage_batch_loop blobOk quality_mode room_types batch_id
        images 0 st.images).2.2.2 = some e) :
    stage_batch st client_ip images room_types quality_mode batch_id blobOk
      = ({ db := st.db
           images := (stage_batch_loop blobOk quality_mode room_types batch_id
             images 0 st.images).1
           counters := st.counters },
         (stage_batch_loop blobOk quality_mode room_types batch_id images 0 st.images).2.2.1,
         .error e) := by
  simp [stage_batch, hc, h10, h0, hv, hloop]

theorem stage_batch_eq_admitted {st : SysState} {client_ip : String}
    {images : List (Upload × String)} {room_types : List String}
    {quality_mode batch_id : String} {blobOk : String → Bool} {u u2 : Unit}
    (hc : check_rate_limits st.counters client_ip images.length = .ok u)
    (h10 : ¬ images.length > 10) (h0 : ¬ images.length = 0)
    (hv : validate_uploads (images.map (·.1)) = .ok u2)
    (hloop : (stage_batch_loop blobOk quality_mode room_types batch_id
        images 0 st.images).2.2.2 = none) :
    stage_batch st client_ip images room_types quality_mode batch_id blobOk
      = ({ db := st.db ++ (stage_batch_loop blobOk quality_mode room_types batch_id
             images 0 st.images).2.1
           images := (stage_batch_loop blobOk quality_mode room_types batch_id
             images 0 st.images).1
           counters := st.counters.incrementN client_ip images.length },
         (stage_batch_loop blobOk quality_mode room_types batch_id images 0 st.images).2.2.1
           ++ [.commit] ++ images.map (fun p => Event.dispatch p.2)
           ++ List.replicate images.length .increment,
         .ok { batch_id := batch_id
               total_images := images.length
               estimated_time_seconds := 25 * images.length }) := by
  simp [stage_batch, hc, h10, h0, hv, hloop]

/-- C3: for both submission endpoints every quota increment happens after
the job-record commit in the event trace; the number of increments equals
the number of job records added (exactly once per admitted job); and a
request that fails (rate limits, validation, or storage before creation)
changes neither the job table nor either quota counter. -/
theorem C3_increment_after_creation :
    (∀ (st : SysState) (client_ip : String) (image : Upload) (room_type : Option String)
       (quality_mode staging_id : String) (blobOk : String → Bool),
      incsAfterCommit false
          (stage_room st client_ip image room_type quality_mode staging_id blobOk).2.1 = true ∧
      (stage_room st client_ip image room_type quality_mode staging_id blobOk).2.1.countP
          (fun e => decide (e = Event.increment)) =
        (stage_room st client_ip image room_type quality_mode staging_id blobOk).1.db.length
          - st.db.length ∧
      (∀ e, (stage_room st client_ip image room_type quality_mode staging_id blobOk).2.2
            = .error e →
        (stage_room st client_ip image room_type quality_mode staging_id blobOk).1.db = st.db ∧
        (stage_room st client_ip image room_type quality_mode staging_id blobOk).1.counters
          = st.counters) ∧
      (∀ resp, (stage_room st client_ip image room_type quality_mode staging_id blobOk).2.2
            = .ok resp →
        (stage_room st client_ip image room_type quality_mode staging_id blobOk).1.db.length
          = st.db.length + 1 ∧
        (stage_room st client_ip image room_type quality_mode staging_id blobOk).1.counters.userCount client_ip
          = st.counters.userCount client_ip + 1 ∧
        (stage_room st client_ip image room_type quality_mode staging_id blobOk).1.counters.globalCount
          = st.counters.globalCount + 1)) ∧
    (∀ (st : SysState) (client_ip : String) (images : List (Upload × String))
       (room_types : List String) (quality_mode batch_id : String) (blobOk : String → Bool),
      incsAfterCommit false
          (stage_batch st client_ip images room_types quality_mode batch_id blobOk).2.1 = true ∧
      (stage_batch st client_ip images room_types quality_mode batch_id blobOk).2.1.countP
          (fun e => decide (e = Event.increment)) =
        (stage_batch st client_ip images room_types quality_mode batch_id blobOk).1.db.length
          - st.db.length ∧
      (∀ e, (stage_batch st client_ip images room_types quality_mode batch_id blobOk).2.2
            = .error e →
        (stage_batch st client_ip images room_types quality_mode batch_id blobOk).1.db = st.db ∧
        (stage_batch st client_ip images room_types quality_mode batch_id blobOk).1.counters
          = st.counters) ∧
      (∀ resp, (stage_batch st client_ip images room_types quality_mode batch_id blobOk).2.2
            = .ok resp →
        (stage_batch st client_ip images room_types quality_mode batch_id blobOk).1.db.length
          = st.db.length + images.length ∧
        (stage_batch st client_ip images room_types quality_mode batch_id blobOk).1.counters.userCount client_ip
          = st.counters.userCount client_ip + images.length ∧
        (stage_batch st client_ip images room_types quality_mode batch_id blobOk).1.counters.globalCount
          = st.counters.globalCount + images.length)) := by
  constructor
  · intro st client_ip image room_type quality_mode staging_id blobOk
    cases hc : check_rate_limits st.counters client_ip 1 with
    | error e =>
      rw [stage_room_eq_denied hc]
      exact ⟨rfl, by simp, fun _ _ => ⟨rfl, rfl⟩, fun resp h => by simp at h⟩
    | ok u =>
      cases h1 : str_startswith image.content_type "image/" with
      | false =>
        rw [stage_room_eq_badtype hc h1]
        exact ⟨rfl, by simp, fun _ _ => ⟨rfl, rfl⟩, fun resp h => by simp at h⟩
      | true =>
        by_cases h2 : image.size > max_upload_size
        · rw [stage_room_eq_toolarge hc h1 h2]
          exact ⟨rfl, by simp, fun _ _ => ⟨rfl, rfl⟩, fun resp h => by simp at h⟩
        · cases hb : blobOk staging_id with
          | false =>
            rw [stage_room_eq_storefail hc h1 h2 hb]
            exact ⟨rfl, by simp, fun _ _ => ⟨rfl, rfl⟩, fun resp h => by simp at h⟩
          | true =>
            rw [stage_room_eq_ok hc h1 h2 hb]
            refine ⟨by simp [incsAfterCommit], ?_, fun e h => by simp at h, fun resp h => ?_⟩
            · simp [List.countP_cons]
            · exact ⟨by simp, increment_usage_userCount st.counters client_ip, rfl⟩
  · intro st client_ip images room_types quality_mode batch_id blobOk
    cases hc : check_rate_limits st.counters client_ip images.length with
    | error e =>
      rw [stage_batch_eq_denied hc]
      exact ⟨rfl, by simp, fun _ _ => ⟨rfl, rfl⟩, fun resp h => by simp at h⟩
    | ok u =>
      by_cases h10 : images.length > 10
      · rw [stage_batch_eq_toomany hc h10]
        exact ⟨rfl, by simp, fun _ _ => ⟨rfl, rfl⟩, fun resp h => by simp at h⟩
      · by_cases h0 : images.length = 0
        · rw [stage_batch_eq_empty hc h10 h0]
          exact ⟨rfl, by simp, fun _ _ => ⟨rfl, rfl⟩, fun resp h => by simp at h⟩
        · cases hv : validate_uploads (images.map (·.1)) with
          | error e =>
            rw [stage_batch_eq_badfile hc h10 h0 hv]
            exact ⟨rfl, by simp, fun _ _ => ⟨rfl, rfl⟩, fun resp h => by simp at h⟩
          | ok u2 =>
            have hevs := stage_batch_loop_evs blobOk quality_mode room_types batch_id
              images 0 st.images
            have hevs_ne : ∀ e ∈ (stage_batch_loop blobOk quality_mode room_types batch_id
                images 0 st.images).2.2.1,
                e ≠ Event.increment ∧ e ≠ Event.commit := by
              intro e he
              obtain ⟨sid, rfl⟩ := hevs e he
              exact ⟨by simp, by simp⟩
            have hevs_cnt : (stage_batch_loop blobOk quality_mode room_types batch_id
                images 0 st.images).2.2.1.countP (fun e => decide (e = Event.increment)) = 0 := by
              rw [List.countP_eq_zero]
              intro e he
              obtain ⟨sid, rfl⟩ := hevs e he
              simp
            rcases herr : (stage_batch_loop blobOk quality_mode room_types batch_id
                images 0 st.images).2.2.2 with _ | e
            · -- loop succeeded: commit, dispatches, increments
              have hlen := stage_batch_loop_recs_length blobOk quality_mode room_types
                batch_id images 0 st.images herr
              rw [stage_batch_eq_admitted hc h10 h0 hv herr]
              refine ⟨?_, ?_, fun e h => by simp at h, fun resp h => ?_⟩
              · simp only [List.append_assoc, List.singleton_append]
                rw [incsAfterCommit_append_no_commit _ hevs_ne]
                exact incsAfterCommit_true _
              · have hdisp : (images.map (fun p => Event.dispatch p.2)).countP
                    (fun e => decide (e = Event.increment)) = 0 := by
                  rw [List.countP_eq_zero]
                  intro e he
                  obtain ⟨p, _, rfl⟩ := List.mem_map.mp he
                  simp
                simp [List.countP_append, hevs_cnt, hdisp, countP_inc_replicate,
                  List.countP_cons, List.length_append, hlen]
              · refine ⟨by simp [List.length_append, hlen], ?_, ?_⟩
                · exact incrementN_userCount st.counters client_ip images.length
                · exact incrementN_globalCount st.counters client_ip images.length
            · -- loop aborted with a 500: blobs may persist, rows and counters do not change
              rw [stage_batch_eq_loopfail hc h10 h0 hv herr]
              refine ⟨incsAfterCommit_of_no_inc _ (fun e he => (hevs_ne e he).1) false,
                ?_, fun e' h => ⟨rfl, rfl⟩, fun resp h => by simp at h⟩
              simp [hevs_cnt]

/-- C3 witness: a successful single-image submission emits the trace
store-blob, commit, dispatch, increment (increment strictly after commit),
adds one job row and bumps both counters by exactly one. -/
theorem C3_increment_after_creation_witness :
    (let st : SysState := {}
     let up : Upload := { filename := "x.jpg", content_type := "image/jpeg", size := 10,
                          content := .img ⟨1024, 768, "RGB"⟩ }
     (stage_room st "ip" up none "premium" "a" (fun _ => true)).2.2
        = .ok { id := "a", status := "processing",
                original_image_url := "/api/images/original_a.jpg", style := "default",
                room_type := "auto-detected", quality_mode := "premium",
                estimated_time_seconds := 25 }) ∧
    (let st : SysState := {}
     let up : Upload := { filename := "x.jpg", content_type := "image/jpeg", size := 10,
                          content := .img ⟨1024, 768, "RGB"⟩ }
     (stage_room st "ip" up none "premium" "a" (fun _ => true)).1.db.length
        = st.db.length + 1 ∧
     (stage_room st "ip" up none "premium" "a" (fun _ => true)).1.counters.userCount "ip"
        = st.counters.userCount "ip" + 1 ∧
     (stage_room st "ip" up none "premium" "a" (fun _ => true)).1.counters.globalCount
        = st.counters.globalCount + 1) :=
  ⟨rfl, (C3_increment_after_creation.1 {} "ip"
      { filename := "x.jpg", content_type := "image/jpeg", size := 10,
        content := .img ⟨1024, 768, "RGB"⟩ } none "premium" "a" (fun _ => true)).2.2.2
    { id := "a", status := "processing",
      original_image_url := "/api/images/original_a.jpg", style := "default",
      room_type := "auto-detected", quality_mode := "premium",
      estimated_time_seconds := 25 } rfl⟩

/-! Executor helper lemmas. -/

theorem findJob_updateJob (db : List Staging) (staging_id : String) (f : Staging → Staging)
    (hf : ∀ s, (f s).id = s.id) :
    findJob (updateJob db staging_id f) staging_id = (findJob db staging_id).map f := by
  induction db with
  | nil => rfl
  | cons s t ih =>
    by_cases hs : s.id = staging_id
    · simp [updateJob, findJob, hs, hf s]
    · simp only [updateJob, List.map_cons, findJob, if_neg hs]
      rw [List.find?_cons_of_neg _ (by simpa using hs),
        List.find?_cons_of_neg _ (by simpa using hs)]
      exact ih

theorem findJob_updateJob2 (db : List Staging) (staging_id : String)
    (f1 f2 : Staging → Staging) (hf1 : ∀ s, (f1 s).id = s.id) (hf2 : ∀ s, (f2 s).id = s.id) :
    findJob (updateJob (updateJob db staging_id f1) staging_id f2) staging_id
      = (findJob db staging_id).map (fun s => f2 (f1 s)) := by
  rw [findJob_updateJob _ _ _ hf2, findJob_updateJob _ _ _ hf1]
  cases findJob db staging_id <;> rfl

theorem ai_stage_room_noblob {configured : Bool} {gw : DecodedImage → Option DecodedImage}
    {imgs : ImageStorage} {staging_id : String}
    (h : imgs.get_image staging_id "original" = none) :
    AIService.stage_room configured gw imgs staging_id
      = (imgs, (false, "Original image not found", none), 0) := by
  simp [AIService.stage_room, h]

theorem ai_stage_room_garbage {configured : Bool} {gw : DecodedImage → Option DecodedImage}
    {imgs : ImageStorage} {staging_id msg : String}
    (h : imgs.get_image staging_id "original" = some (.garbage msg)) :
    AIService.stage_room configured gw imgs staging_id
      = (imgs, (false, "Error during staging: " ++ msg, none), 0) := by
  simp [AIService.stage_room, AIService.stage_room_from_bytes_sync, h]

theorem ai_stage_room_invalid {configured : Bool} {gw : DecodedImage → Option DecodedImage}
    {imgs : ImageStorage} {staging_id : String} {d : DecodedImage}
    (h : imgs.get_image staging_id "original" = some (.img d))
    (hv : (AIService.validate_image d).is_valid = false) :
    AIService.stage_room configured gw imgs staging_id
      = (imgs, (false, (AIService.validate_image d).reason, none), 0) := by
  simp [AIService.stage_room, AIService.stage_room_from_bytes_sync, h, hv]

theorem ai_stage_room_notcfg {gw : DecodedImage → Option DecodedImage}
    {imgs : ImageStorage} {staging_id : String} {d : DecodedImage}
    (h : imgs.get_image staging_id "original" = some (.img d))
    (hv : (AIService.validate_image d).is_valid = true) :
    AIService.stage_room false gw imgs staging_id
      = (imgs, (false, "AI service not configured", none), 0) := by
  simp [AIService.stage_room, AIService.stage_room_from_bytes_sync, h, hv]

theorem ai_stage_room_gwfail {gw : DecodedImage → Option DecodedImage}
    {imgs : ImageStorage} {staging_id : String} {d : DecodedImage}
    (h : imgs.get_image staging_id "original" = some (.img d))
    (hv : (AIService.validate_image d).is_valid = true)
    (hgw : gw (AIService.preprocess_image d) = none) :
    AIService.stage_room true gw imgs staging_id
      = (imgs, (false, "AI failed to generate staged image. The image may have been rejected by content filters. Try a different photo.", none), 1) := by
  simp [AIService.stage_room, AIService.stage_room_from_bytes_sync, h, hv, hgw]

theorem ai_stage_room_success {gw : DecodedImage → Option DecodedImage}
    {imgs : ImageStorage} {staging_id : String} {d out : DecodedImage}
    (h : imgs.get_image staging_id "original" = some (.img d))
    (hv : (AIService.validate_image d).is_valid = true)
    (hgw : gw (AIService.preprocess_image d) = some out) :
    AIService.stage_room true gw imgs staging_id
      = ({ blobs := (("staged", staging_id), .img out) :: imgs.blobs },
         (true, "staged_" ++ staging_id ++ ".jpg", some (0.85 : ℚ)), 1) := by
  simp [AIService.stage_room, AIService.stage_room_from_bytes_sync, h, hv, hgw,
    ImageStorage.store_image]

theorem validate_reason_ne (d : DecodedImage)
    (hv : (AIService.validate_image d).is_valid = false) :
    (AIService.validate_image d).reason ≠ "" := by
  by_cases h1 : d.width < 512 ∨ d.height < 512
  · simp [AIService.validate_image, h1]
  · by_cases h2 : d.mode = "RGB" ∨ d.mode = "RGBA"
    · exfalso
      simp [AIService.validate_image, h1, h2] at hv
    · simp [AIService.validate_image, h1, h2]

theorem append_left_ne_empty (s t : String) (h : s ≠ "") : s ++ t ≠ "" := by
  intro he
  apply h
  have hlen := congrArg String.length he
  rw [String.length_append] at hlen
  have : s.length = 0 := by
    have : (("" : String)).length = 0 := rfl
    omega
  cases s with
  | mk data =>
    cases data with
    | nil => rfl
    | cons c cs => simp [String.length] at this

theorem ai_stage_room_fail_ne {configured : Bool} {gw : DecodedImage → Option DecodedImage}
    {imgs imgs1 : ImageStorage} {staging_id msg : String} {q : Option ℚ} {g : Nat}
    (hsr : AIService.stage_room configured gw imgs staging_id = (imgs1, (false, msg, q), g)) :
    msg ≠ "" := by
  rcases hblob : imgs.get_image staging_id "original" with _ | b
  · rw [ai_stage_room_noblob hblob] at hsr
    have hm : "Original image not found" = msg := by
      have := congrArg (fun p => p.2.1.2.1) hsr
      simpa using this
    rw [← hm]
    decide
  · cases b with
    | garbage m =>
      rw [ai_stage_room_garbage hblob] at hsr
      have hm : "Error during staging: " ++ m = msg := by
        have := congrArg (fun p => p.2.1.2.1) hsr
        simpa using this
      rw [← hm]
      exact append_left_ne_empty _ _ (by decide)
    | img d =>
      cases hv : (AIService.validate_image d).is_valid
      · rw [ai_stage_room_invalid hblob hv] at hsr
        have hm : (AIService.validate_image d).reason = msg := by
          have := congrArg (fun p => p.2.1.2.1) hsr
          simpa using this
        rw [← hm]
        exact validate_reason_ne d hv
      · cases configured
        · rw [ai_stage_room_notcfg hblob hv] at hsr
          have hm : "AI service not configured" = msg := by
            have := congrArg (fun p => p.2.1.2.1) hsr
            simpa using this
          rw [← hm]
          decide
        · rcases hgw : gw (AIService.preprocess_image d) with _ | out
          · rw [ai_stage_room_gwfail hblob hv hgw] at hsr
            have hm : "AI failed to generate staged image. The image may have been rejected by content filters. Try a different photo." = msg := by
              have := congrArg (fun p => p.2.1.2.1) hsr
              simpa using this
            rw [← hm]
            decide
          · rw [ai_stage_room_success hblob hv hgw] at hsr
            have := congrArg (fun p => p.2.1.1) hsr
            simp at this

theorem process_staging_eq_excBefore {st : SysState} {staging_id : String} {configured : Bool}
    {gw : DecodedImage → Option DecodedImage} {m : String} {pt now : Nat} {j : Staging}
    (hj : findJob st.db staging_id = some j) :
    process_staging st staging_id configured gw (some (.beforeGateway, m)) pt now
      = ({ db := updateJob (updateJob st.db staging_id (fun s => { s with status := .processing }))
             staging_id (fun s => { s with status := .failed, error_message := some m })
           images := st.images, counters := st.counters },
         { status := "failed", error := some m }, 0) := by
  simp [process_staging, hj]

theorem process_staging_eq_excDuring {st : SysState} {staging_id : String} {configured : Bool}
    {gw : DecodedImage → Option DecodedImage} {m : String} {pt now : Nat} {j : Staging}
    (hj : findJob st.db staging_id = some j) :
    process_staging st staging_id configured gw (some (.duringGateway, m)) pt now
      = ({ db := updateJob (updateJob st.db staging_id (fun s => { s with status := .processing }))
             staging_id (fun s => { s with status := .failed, error_message := some m })
           images := st.images, counters := st.counters },
         { status := "failed", error := some m }, 0) := by
  simp [process_staging, hj]

theorem process_staging_eq_success {st : SysState} {staging_id : String} {configured : Bool}
    {gw : DecodedImage → Option DecodedImage} {pt now : Nat} {j : Staging}
    {imgs1 : ImageStorage} {result : String} {q : Option ℚ} {g : Nat}
    (hj : findJob st.db staging_id = some j)
    (hsr : AIService.stage_room configured gw st.images staging_id
      = (imgs1, (true, result, q), g)) :
    process_staging st staging_id configured gw none pt now
      = ({ db := updateJob (updateJob st.db staging_id (fun s => { s with status := .processing }))
             staging_id (fun s =>
               { s with status := .completed, staged_image_path := some result,
                        processing_time_ms := some pt, quality_score := q,
                        architectural_integrity := some true, completed_at := some now })
           images := imgs1, counters := st.counters },
         { status := "completed", error := none }, g) := by
  simp [process_staging, hj, hsr, AIService.check_architectural_integrity]

theorem process_staging_eq_failure {st : SysState} {staging_id : String} {configured : Bool}
    {gw : DecodedImage → Option DecodedImage} {pt now : Nat} {j : Staging}
    {imgs1 : ImageStorage} {result : String} {q : Option ℚ} {g : Nat}
    (hj : findJob st.db staging_id = some j)
    (hsr : AIService.stage_room configured gw st.images staging_id
      = (imgs1, (false, result, q), g)) :
    process_staging st staging_id configured gw none pt now
      = ({ db := updateJob (updateJob st.db staging_id (fun s => { s with status := .processing }))
             staging_id (fun s =>
               { s with status := .failed, error_message := some result,
                        processing_time_ms := some pt })
           images := imgs1, counters := st.counters },
         { status := "failed", error := some result }, g) := by
  simp [process_staging, hj, hsr]

theorem process_staging_eq_finalizeExc {st : SysState} {staging_id : String} {configured : Bool}
    {gw : DecodedImage → Option DecodedImage} {m : String} {pt now : Nat} {j : Staging}
    {imgs1 : ImageStorage} {result : String} {q : Option ℚ} {g : Nat}
    (hj : findJob st.db staging_id = some j)
    (hsr : AIService.stage_room configured gw st.images staging_id
      = (imgs1, (true, result, q), g)) :
    process_staging st staging_id configured gw (some (.duringFinalize, m)) pt now
      = ({ db := updateJob (updateJob st.db staging_id (fun s => { s with status := .processing }))
             staging_id (fun s =>
               { s with status := .failed, error_message := some m,
                        staged_image_path := some result,
                        processing_time_ms := some pt, quality_score := q })
           images := imgs1, counters := st.counters },
         { status := "failed", error := some m }, g) := by
  simp [process_staging, hj, hsr]

theorem process_staging_eq_failure_finalizeExc {st : SysState} {staging_id : String}
    {configured : Bool} {gw : DecodedImage → Option DecodedImage} {m : String} {pt now : Nat}
    {j : Staging} {imgs1 : ImageStorage} {result : String} {q : Option ℚ} {g : Nat}
    (hj : findJob st.db staging_id = some j)
    (hsr : AIService.stage_room configured gw st.images staging_id
      = (imgs1, (false, result, q), g)) :
    process_staging st staging_id configured gw (some (.duringFinalize, m)) pt now
      = ({ db := updateJob (updateJob st.db staging_id (fun s => { s with status := .processing }))
             staging_id (fun s =>
               { s with status := .failed, error_message := some result,
                        processing_time_ms := some pt })
           images := imgs1, counters := st.counters },
         { status := "failed", error := some result }, g) := by
  simp [process_staging, hj, hsr]

theorem process_staging_find_excBefore {st : SysState} {staging_id : String}
    {configured : Bool} {gw : DecodedImage → Option DecodedImage} {m : String}
    {pt now : Nat} {j : Staging} (hj : findJob st.db staging_id = some j) :
    findJob (process_staging st staging_id configured gw
        (some (.beforeGateway, m)) pt now).1.db staging_id
      = some { j with status := .failed, error_message := some m } := by
  simp only [process_staging_eq_excBefore hj]
  rw [findJob_updateJob2 st.db staging_id
    (fun s => { s with status := .processing })
    (fun s => { s with status := .failed, error_message := some m })
    (fun _ => rfl) (fun _ => rfl), hj]
  rfl

theorem process_staging_find_excDuring {st : SysState} {staging_id : String}
    {configured : Bool} {gw : DecodedImage → Option DecodedImage} {m : String}
    {pt now : Nat} {j : Staging} (hj : findJob st.db staging_id = some j) :
    findJob (process_staging st staging_id configured gw
        (some (.duringGateway, m)) pt now).1.db staging_id
      = some { j with status := .failed, error_message := some m } := by
  simp only [process_staging_eq_excDuring hj]
  rw [findJob_updateJob2 st.db staging_id
    (fun s => { s with status := .processing })
    (fun s => { s with status := .failed, error_message := some m })
    (fun _ => rfl) (fun _ => rfl), hj]
  rfl

theorem process_staging_find_success {st : SysState} {staging_id : String}
    {configured : Bool} {gw : DecodedImage → Option DecodedImage} {pt now : Nat}
    {j : Staging} {imgs1 : ImageStorage} {result : String} {q : Option ℚ} {g : Nat}
    (hj : findJob st.db staging_id = some j)
    (hsr : AIService.stage_room configured gw st.images staging_id
      = (imgs1, (true, result, q), g)) :
    findJob (process_staging st staging_id configured gw none pt now).1.db staging_id
      = some { j with status := .completed, staged_image_path := some result,
                      processing_time_ms := some pt, quality_score := q,
                      architectural_integrity := some true, completed_at := some now } := by
  simp only [process_staging_eq_success hj hsr]
  rw [findJob_updateJob2 st.db staging_id
    (fun s => { s with status := .processing })
    (fun s => { s with status := .completed, staged_image_path := some result,
                       processing_time_ms := some pt, quality_score := q,
                       architectural_integrity := some true, completed_at := some now })
    (fun _ => rfl) (fun _ => rfl), hj]
  rfl

theorem process_staging_find_failure {st : SysState} {staging_id : String}
    {configured : Bool} {gw : DecodedImage → Option DecodedImage} {pt now : Nat}
    {j : Staging} {imgs1 : ImageStorage} {result : String} {q : Option ℚ} {g : Nat}
    (hj : findJob st.db staging_id = some j)
    (hsr : AIService.stage_room configured gw st.images staging_id
      = (imgs1, (false, result, q), g)) :
    findJob (process_staging st staging_id configured gw none pt now).1.db staging_id
      = some { j with status := .failed, error_message := some result,
                      processing_time_ms := some pt } := by
  simp only [process_staging_eq_failure hj hsr]
  rw [findJob_updateJob2 st.db staging_id
    (fun s => { s with status := .processing })
    (fun s => { s with status := .failed, error_message := some result,
                       processing_time_ms := some pt })
    (fun _ => rfl) (fun _ => rfl), hj]
  rfl

theorem process_staging_find_finalizeExc {st : SysState} {staging_id : String}
    {configured : Bool} {gw : DecodedImage → Option DecodedImage} {m : String}
    {pt now : Nat} {j : Staging} {imgs1 : ImageStorage} {result : String}
    {q : Option ℚ} {g : Nat}
    (hj : findJob st.db staging_id = some j)
    (hsr : AIService.stage_room configured gw st.images staging_id
      = (imgs1, (true, result, q), g)) :
    findJob (process_staging st staging_id configured gw
        (some (.duringFinalize, m)) pt now).1.db staging_id
      = some { j with status := .failed, error_message := some m,
                      staged_image_path := some result,
                      processing_time_ms := some pt, quality_score := q } := by
  simp only [process_staging_eq_finalizeExc hj hsr]
  rw [findJob_updateJob2 st.db staging_id
    (fun s => { s with status := .processing })
    (fun s => { s with status := .failed, error_message := some m,
                       staged_image_path := some result,
                       processing_time_ms := some pt, quality_score := q })
    (fun _ => rfl) (fun _ => rfl), hj]
  rfl

theorem process_staging_find_failure_finalizeExc {st : SysState} {staging_id : String}
    {configured : Bool} {gw : DecodedImage → Option DecodedImage} {m : String}
    {pt now : Nat} {j : Staging} {imgs1 : ImageStorage} {result : String}
    {q : Option ℚ} {g : Nat}
    (hj : findJob st.db staging_id = some j)
    (hsr : AIService.stage_room configured gw st.images staging_id
      = (imgs1, (false, result, q), g)) :
    findJob (process_staging st staging_id configured gw
        (some (.duringFinalize, m)) pt now).1.db staging_id
      = some { j with status := .failed, error_message := some result,
                      processing_time_ms := some pt } := by
  simp only [process_staging_eq_failure_finalizeExc hj hsr]
  rw [findJob_updateJob2 st.db staging_id
    (fun s => { s with status := .processing })
    (fun s => { s with status := .failed, error_message := some result,
                       processing_time_ms := some pt })
    (fun _ => rfl) (fun _ => rfl), hj]
  rfl

/-! Claim C4. -/

/-- C4: for every job row that exists when the executor runs, every run of
`process_staging` ends with the row terminal (`completed` or `failed`);
any unexpected exception at any modelled raise site yields `failed` with the
error message recorded, and any Generation Gateway pipeline failure (with no
exception) yields `failed` with that failure message recorded.
Reads on the spec-modelled `AIService.stage_room` wrapper; the terminal-write
guarantee itself is the `except` handler of `tasks.py`. -/
theorem C4_executor_terminal (st : SysState) (staging_id : String) (configured : Bool)
    (gw : DecodedImage → Option DecodedImage) (exc : Option (ExcSite × String))
    (pt now : Nat) (j : Staging)
    (hj : findJob st.db staging_id = some j) :
    ∃ j', findJob (process_staging st staging_id configured gw exc pt now).1.db staging_id
        = some j' ∧
      (j'.status = .completed ∨ j'.status = .failed) ∧
      (exc.isSome = true → j'.status = .failed ∧ j'.error_message.isSome = true) ∧
      (∀ imgs1 msg q g, exc = none →
        AIService.stage_room configured gw st.images staging_id = (imgs1, (false, msg, q), g) →
        j'.status = .failed ∧ j'.error_message = some msg) := by
  rcases exc with _ | ⟨site, m⟩
  · rcases hsr : AIService.stage_room configured gw st.images staging_id
      with ⟨imgs1, ⟨succ, result, q⟩, g⟩
    cases succ
    · refine ⟨_, process_staging_find_failure hj hsr, Or.inr rfl,
        fun h => by simp at h, ?_⟩
      intro imgs1' msg q' g' _ hsr0
      have hmsg : result = msg := by
        have := congrArg (fun p => p.2.1.2.1) hsr0
        simpa using this
      subst hmsg
      exact ⟨rfl, rfl⟩
    · refine ⟨_, process_staging_find_success hj hsr, Or.inl rfl,
        fun h => by simp at h, ?_⟩
      intro imgs1' msg q' g' _ hsr0
      have := congrArg (fun p => p.2.1.1) hsr0
      simp at this
  · cases site
    · exact ⟨_, process_staging_find_excBefore hj, Or.inr rfl, fun _ => ⟨rfl, rfl⟩,
        fun _ _ _ _ hn _ => by simp at hn⟩
    · exact ⟨_, process_staging_find_excDuring hj, Or.inr rfl, fun _ => ⟨rfl, rfl⟩,
        fun _ _ _ _ hn _ => by simp at hn⟩
    · rcases hsr : AIService.stage_room configured gw st.images staging_id
        with ⟨imgs1, ⟨succ, result, q⟩, g⟩
      cases succ
      · exact ⟨_, process_staging_find_failure_finalizeExc hj hsr, Or.inr rfl,
          fun _ => ⟨rfl, rfl⟩, fun _ _ _ _ hn _ => by simp at hn⟩
      · exact ⟨_, process_staging_find_finalizeExc hj hsr, Or.inr rfl,
          fun _ => ⟨rfl, rfl⟩, fun _ _ _ _ hn _ => by simp at hn⟩

/-- C4 witness: a processing job with no stored blob runs to `failed`
(the step-1 failure path), terminal as claimed. -/
theorem C4_executor_terminal_witness :
    (findJob [({ id := "a", original_image_path := "original_a.jpg" } : Staging)] "a"
      = some { id := "a", original_image_path := "original_a.jpg" }) ∧
    (∃ j', findJob (process_staging
        { db := [{ id := "a", original_image_path := "original_a.jpg" }], images := {},
          counters := {} } "a" true (fun _ => none) none 5 9).1.db "a" = some j' ∧
      (j'.status = .completed ∨ j'.status = .failed) ∧
      ((none : Option (ExcSite × String)).isSome = true →
        j'.status = .failed ∧ j'.error_message.isSome = true) ∧
      (∀ imgs1 msg q g, (none : Option (ExcSite × String)) = none →
        AIService.stage_room true (fun _ => none)
          ({ db := [{ id := "a", original_image_path := "original_a.jpg" }], images := {},
             counters := {} } : SysState).images "a" = (imgs1, (false, msg, q), g) →
        j'.status = .failed ∧ j'.error_message = some msg)) :=
  ⟨by decide, C4_executor_terminal
    { db := [{ id := "a", original_image_path := "original_a.jpg" }], images := {},
      counters := {} } "a" true (fun _ => none) none 5 9
    { id := "a", original_image_path := "original_a.jpg" } (by decide)⟩

/-! Claim C5. -/

/-- C5 counterexample: on a job whose status is already terminal
(`completed`), re-invoking `process_staging` does not no-op: the gateway is
invoked again (count 1, not 0) and the row is rewritten, here ending
`failed` when the fresh gateway call fails — refuting both "leaves the job
record unchanged" and "no second gateway invocation". -/
theorem C5_counterexample :
    (let st : SysState :=
      { db := [{ id := "a", status := .completed, original_image_path := "original_a.jpg",
                 staged_image_path := some "staged_a.jpg" }]
        images := { blobs := [(("original", "a"), .img ⟨1024, 768, "RGB"⟩)] }
        counters := {} }
     ((findJob st.db "a").map Staging.status = some Status.completed) ∧
     ((process_staging st "a" true (fun _ => none) none 5 99).2.2 = 1) ∧
     ((findJob (process_staging st "a" true (fun _ => none) none 5 99).1.db "a").map
        Staging.status = some Status.failed)) := by
  decide

/-- C5 amended: `process_staging` performs no terminal-status check. On a job
with terminal status whose original blob is still present and valid, a
re-invocation re-runs the whole pipeline: the gateway is invoked exactly once
more, and the job ends in the terminal state determined by the fresh gateway
result (completed on success, failed on failure) — not necessarily its
previous state. Read-only endpoints never write, so only redelivery of the
executor can change a terminal status. -/
theorem C5_terminal_rerun (st : SysState) (staging_id : String)
    (gw : DecodedImage → Option DecodedImage) (pt now : Nat) (j : Staging) (d : DecodedImage)
    (hj : findJob st.db staging_id = some j)
    (_hterm : j.status = .completed ∨ j.status = .failed)
    (hblob : st.images.get_image staging_id "original" = some (.img d))
    (hv : (AIService.validate_image d).is_valid = true) :
    (process_staging st staging_id true gw none pt now).2.2 = 1 ∧
    ∃ j', findJob (process_staging st staging_id true gw none pt now).1.db staging_id
        = some j' ∧
      ((gw (AIService.preprocess_image d)).isSome = true → j'.status = .completed) ∧
      (gw (AIService.preprocess_image d) = none → j'.status = .failed) := by
  rcases hgw : gw (AIService.preprocess_image d) with _ | out
  · have hsr := ai_stage_room_gwfail hblob hv hgw
    constructor
    · simp only [process_staging_eq_failure hj hsr]
    · exact ⟨_, process_staging_find_failure hj hsr,
        fun h => by simp [hgw] at h, fun _ => rfl⟩
  · have hsr := ai_stage_room_success hblob hv hgw
    constructor
    · simp only [process_staging_eq_success hj hsr]
    · refine ⟨_, process_staging_find_success hj hsr, fun _ => rfl, fun h => ?_⟩
      simp at h

/-- C5 amended witness: re-running the executor on a completed job with a
successful fresh gateway call invokes the gateway once more. -/
theorem C5_terminal_rerun_witness :
    ((findJob [({ id := "a", status := .completed, original_image_path := "original_a.jpg" }
        : Staging)] "a")
      = some { id := "a", status := .completed, original_image_path := "original_a.jpg" }) ∧
    ((process_staging
        { db := [{ id := "a", status := .completed, original_image_path := "original_a.jpg" }],
          images := { blobs := [(("original", "a"), .img ⟨1024, 768, "RGB"⟩)] },
          counters := {} } "a" true (fun x => some x) none 5 99).2.2 = 1 ∧
      ∃ j', findJob (process_staging
        { db := [{ id := "a", status := .completed, original_image_path := "original_a.jpg" }],
          images := { blobs := [(("original", "a"), .img ⟨1024, 768, "RGB"⟩)] },
          counters := {} } "a" true (fun x => some x) none 5 99).1.db "a" = some j' ∧
        (((fun x => some x) (AIService.preprocess_image ⟨1024, 768, "RGB"⟩)).isSome = true →
          j'.status = .completed) ∧
        ((fun x => some x) (AIService.preprocess_image ⟨1024, 768, "RGB"⟩) = none →
          j'.status = .failed)) :=
  ⟨by decide, C5_terminal_rerun
    { db := [{ id := "a", status := .completed, original_image_path := "original_a.jpg" }],
      images := { blobs := [(("original", "a"), .img ⟨1024, 768, "RGB"⟩)] },
      counters := {} } "a" (fun x => some x) 5 99
    { id := "a", status := .completed, original_image_path := "original_a.jpg" }
    ⟨1024, 768, "RGB"⟩ (by decide) (Or.inl rfl) (by decide) (by decide)⟩

/-! Claim C7. -/

/-- C7: an image below 512x512 fails the executor's local validation before
the Generation Gateway is invoked (gateway count 0) and the job becomes
`failed` with the 512x512 minimum-resolution reason; a decodable image of a
color mode other than RGB/RGBA is likewise rejected locally with the format
reason and no gateway call. The blob-loading wrapper `AIService.stage_room`
is spec-modelled; `_validate_image` and its ordering before the gateway are
source. -/
theorem C7_local_validation (st : SysState) (staging_id : String) (configured : Bool)
    (gw : DecodedImage → Option DecodedImage) (pt now : Nat) (j : Staging) (d : DecodedImage)
    (hj : findJob st.db staging_id = some j)
    (hblob : st.images.get_image staging_id "original" = some (.img d)) :
    ((d.width < 512 ∨ d.height < 512) →
      (process_staging st staging_id configured gw none pt now).2.2 = 0 ∧
      ∃ j', findJob (process_staging st staging_id configured gw none pt now).1.db staging_id
          = some j' ∧ j'.status = .failed ∧
        j'.error_message
          = some "Image resolution too low. Please use images with at least 512x512 pixels.") ∧
    (¬ (d.width < 512 ∨ d.height < 512) → ¬ (d.mode = "RGB" ∨ d.mode = "RGBA") →
      (process_staging st staging_id configured gw none pt now).2.2 = 0 ∧
      ∃ j', findJob (process_staging st staging_id configured gw none pt now).1.db staging_id
          = some j' ∧ j'.status = .failed ∧
        j'.error_message = some "Invalid image format. Please use RGB images.") := by
  constructor
  · intro h1
    have hv : (AIService.validate_image d).is_valid = false := by
      simp [AIService.validate_image, h1]
    have hr : (AIService.validate_image d).reason
        = "Image resolution too low. Please use images with at least 512x512 pixels." := by
      simp [AIService.validate_image, h1]
    have hsr : AIService.stage_room configured gw st.images staging_id
        = (st.images, (false, (AIService.validate_image d).reason, none), 0) :=
      ai_stage_room_invalid hblob hv
    rw [hr] at hsr
    constructor
    · simp only [process_staging_eq_failure hj hsr]
    · exact ⟨_, process_staging_find_failure hj hsr, rfl, rfl⟩
  · intro h1 h2
    have hv : (AIService.validate_image d).is_valid = false := by
      simp [AIService.validate_image, h1, h2]
    have hr : (AIService.validate_image d).reason
        = "Invalid image format. Please use RGB images." := by
      simp [AIService.validate_image, h1, h2]
    have hsr : AIService.stage_room configured gw st.images staging_id
        = (st.images, (false, (AIService.validate_image d).reason, none), 0) :=
      ai_stage_room_invalid hblob hv
    rw [hr] at hsr
    constructor
    · simp only [process_staging_eq_failure hj hsr]
    · exact ⟨_, process_staging_find_failure hj hsr, rfl, rfl⟩

/-- C7 witness: a 256x256 image is rejected with the minimum-resolution
reason and zero gateway calls. -/
theorem C7_local_validation_witness :
    ((findJob [({ id := "a", original_image_path := "original_a.jpg" } : Staging)] "a")
      = some { id := "a", original_image_path := "original_a.jpg" }) ∧
    ((256 : Nat) < 512 ∨ (256 : Nat) < 512) ∧
    ((process_staging
        { db := [{ id := "a", original_image_path := "original_a.jpg" }],
          images := { blobs := [(("original", "a"), .img ⟨256, 256, "RGB"⟩)] },
          counters := {} } "a" true (fun x => some x) none 5 9).2.2 = 0 ∧
      ∃ j', findJob (process_staging
        { db := [{ id := "a", original_image_path := "original_a.jpg" }],
          images := { blobs := [(("original", "a"), .img ⟨256, 256, "RGB"⟩)] },
          counters := {} } "a" true (fun x => some x) none 5 9).1.db "a" = some j' ∧
        j'.status = .failed ∧
        j'.error_message
          = some "Image resolution too low. Please use images with at least 512x512 pixels.") :=
  ⟨by decide, by decide,
   (C7_local_validation
      { db := [{ id := "a", original_image_path := "original_a.jpg" }],
        images := { blobs := [(("original", "a"), .img ⟨256, 256, "RGB"⟩)] },
        counters := {} } "a" true (fun x => some x) 5 9
      { id := "a", original_image_path := "original_a.jpg" }
      ⟨256, 256, "RGB"⟩ (by decide) (by decide)).1 (by decide)⟩

/-! Claim C8. -/

/-- C8: for a valid image (at least 512x512, RGB) whose gateway call returns
a staged image, the executor drives the processing job to `completed` with
the staged-image reference set, the staged blob stored, the completion
timestamp set, and quality score equal to the constant 0.85, invoking the
gateway exactly once. The blob-loading wrapper `AIService.stage_room` is
spec-modelled. -/
theorem C8_happy_path (st : SysState) (staging_id : String)
    (gw : DecodedImage → Option DecodedImage) (pt now : Nat) (j : Staging)
    (d out : DecodedImage)
    (hj : findJob st.db staging_id = some j)
    (_hstatus : j.status = .processing)
    (hblob : st.images.get_image staging_id "original" = some (.img d))
    (hw : 512 ≤ d.width) (hh : 512 ≤ d.height) (hm : d.mode = "RGB")
    (hgw : gw (AIService.preprocess_image d) = some out) :
    (process_staging st staging_id true gw none pt now).2.2 = 1 ∧
    (process_staging st staging_id true gw none pt now).1.images.get_image
        staging_id "staged" = some (.img out) ∧
    ∃ j', findJob (process_staging st staging_id true gw none pt now).1.db staging_id
        = some j' ∧
      j'.status = .completed ∧
      j'.staged_image_path = some ("staged_" ++ staging_id ++ ".jpg") ∧
      j'.quality_score = some (0.85 : ℚ) ∧
      j'.completed_at = some now := by
  have h1 : ¬ (d.width < 512 ∨ d.height < 512) := by omega
  have hv : (AIService.validate_image d).is_valid = true := by
    simp [AIService.validate_image, h1, hm]
  have hsr := ai_stage_room_success hblob hv hgw
  refine ⟨?_, ?_, ?_⟩
  · simp only [process_staging_eq_success hj hsr]
  · simp only [process_staging_eq_success hj hsr]
    simp [ImageStorage.get_image]
  · exact ⟨_, process_staging_find_success hj hsr, rfl, rfl, rfl, rfl⟩

/-- C8 witness: a 1024x768 RGB image with a successful gateway call ends
completed with the staged reference and the 0.85 placeholder score. -/
theorem C8_happy_path_witness :
    ((findJob [({ id := "a", original_image_path := "original_a.jpg" } : Staging)] "a")
      = some { id := "a", original_image_path := "original_a.jpg" }) ∧
    ((process_staging
        { db := [{ id := "a", original_image_path := "original_a.jpg" }],
          images := { blobs := [(("original", "a"), .img ⟨1024, 768, "RGB"⟩)] },
          counters := {} } "a" true (fun x => some x) none 5 99).2.2 = 1 ∧
      (process_staging
        { db := [{ id := "a", original_image_path := "original_a.jpg" }],
          images := { blobs := [(("original", "a"), .img ⟨1024, 768, "RGB"⟩)] },
          counters := {} } "a" true (fun x => some x) none 5 99).1.images.get_image
          "a" "staged" = some (.img (AIService.preprocess_image ⟨1024, 768, "RGB"⟩)) ∧
      ∃ j', findJob (process_staging
        { db := [{ id := "a", original_image_path := "original_a.jpg" }],
          images := { blobs := [(("original", "a"), .img ⟨1024, 768, "RGB"⟩)] },
          counters := {} } "a" true (fun x => some x) none 5 99).1.db "a" = some j' ∧
        j'.status = .completed ∧
        j'.staged_image_path = some ("staged_" ++ "a" ++ ".jpg") ∧
        j'.quality_score = some (0.85 : ℚ) ∧
        j'.completed_at = some 99) :=
  ⟨by decide, C8_happy_path
    { db := [{ id := "a", original_image_path := "original_a.jpg" }],
      images := { blobs := [(("original", "a"), .img ⟨1024, 768, "RGB"⟩)] },
      counters := {} } "a" (fun x => some x) 5 99
    { id := "a", original_image_path := "original_a.jpg" }
    ⟨1024, 768, "RGB"⟩ (AIService.preprocess_image ⟨1024, 768, "RGB"⟩)
    (by decide) rfl (by decide) (by decide) (by decide) (by decide) rfl⟩

/-! Claim C6. -/

theorem mem_updateJob2 {j' : Staging} {db : List Staging} {sid : String}
    {f1 f2 : Staging → Staging} (h : j' ∈ updateJob (updateJob db sid f1) sid f2)
    (hf1 : ∀ s, (f1 s).id = s.id) :
    ∃ y ∈ db, j' = if y.id = sid then f2 (f1 y) else y := by
  obtain ⟨z, hz, rfl⟩ := List.mem_map.mp h
  obtain ⟨y, hy, rfl⟩ := List.mem_map.mp hz
  refine ⟨y, hy, ?_⟩
  by_cases hid : y.id = sid
  · have h2 : (f1 y).id = sid := by rw [hf1 y]; exact hid
    simp [hid, h2]
  · simp [hid]

/-- C6 counterexample: with an unexpected exception at the
`check_architectural_integrity` call site (`tasks.py` line 66), the `except`
handler commits the already-dirty success fields together with the failure
fields: the job ends `failed` with `staged_image_path` set — refuting
"the staged-image reference is null unless status = completed". -/
theorem C6_counterexample :
    (let st : SysState :=
      { db := [{ id := "a", status := .processing, original_image_path := "original_a.jpg" }]
        images := { blobs := [(("original", "a"), .img ⟨1024, 768, "RGB"⟩)] }
        counters := {} }
     let r := process_staging st "a" true (fun x => some x)
       (some (.duringFinalize, "boom")) 5 99
     ((findJob r.1.db "a").map Staging.status = some Status.failed) ∧
     ((findJob r.1.db "a").map Staging.staged_image_path = some (some "staged_a.jpg")) ∧
     ((findJob r.1.db "a").map Staging.error_message = some (some "boom"))) := by
  decide

/-- C6 amended: every job status is one of processing/completed/failed; the
field invariant (staged reference and completion timestamp null unless
`completed`; failure reason null unless `failed` and then non-empty) holds
for every row created by the submission endpoints, and is preserved by
`process_staging` on a job still in its initial `processing` state provided
no unexpected exception fires at the `check_architectural_integrity` site
(where the except handler commits the dirty staged fields of the aborted
completion) and every raised exception carries a non-empty message. -/
theorem C6_field_invariants :
    (∀ s : Staging, s.status = .processing ∨ s.status = .completed ∨ s.status = .failed) ∧
    (∀ (st : SysState) (client_ip : String) (image : Upload) (room_type : Option String)
       (quality_mode staging_id : String) (blobOk : String → Bool),
      (∀ j ∈ st.db, JobInvariant j) →
      ∀ j' ∈ (stage_room st client_ip image room_type quality_mode staging_id blobOk).1.db,
        JobInvariant j') ∧
    (∀ (st : SysState) (client_ip : String) (images : List (Upload × String))
       (room_types : List String) (quality_mode batch_id : String) (blobOk : String → Bool),
      (∀ j ∈ st.db, JobInvariant j) →
      ∀ j' ∈ (stage_batch st client_ip images room_types quality_mode batch_id blobOk).1.db,
        JobInvariant j') ∧
    (∀ (st : SysState) (staging_id : String) (configured : Bool)
       (gw : DecodedImage → Option DecodedImage) (exc : Option (ExcSite × String))
       (pt now : Nat),
      (∀ j ∈ st.db, JobInvariant j) →
      (∀ j ∈ st.db, j.id = staging_id → j.status = .processing) →
      (∀ site m, exc = some (site, m) → m ≠ "") →
      (∀ m, exc ≠ some (.duringFinalize, m)) →
      ∀ j' ∈ (process_staging st staging_id configured gw exc pt now).1.db,
        JobInvariant j') := by
  refine ⟨?_, ?_, ?_, ?_⟩
  · intro s
    cases s.status
    · exact Or.inl rfl
    · exact Or.inr (Or.inl rfl)
    · exact Or.inr (Or.inr rfl)
  · intro st client_ip image room_type quality_mode staging_id blobOk hInv j' hmem
    cases hc : check_rate_limits st.counters client_ip 1 with
    | error e =>
      rw [stage_room_eq_denied hc] at hmem
      exact hInv j' hmem
    | ok u =>
      cases h1 : str_startswith image.content_type "image/" with
      | false =>
        rw [stage_room_eq_badtype hc h1] at hmem
        exact hInv j' hmem
      | true =>
        by_cases h2 : image.size > max_upload_size
        · rw [stage_room_eq_toolarge hc h1 h2] at hmem
          exact hInv j' hmem
        · cases hb : blobOk staging_id with
          | false =>
            rw [stage_room_eq_storefail hc h1 h2 hb] at hmem
            exact hInv j' hmem
          | true =>
            rw [stage_room_eq_ok hc h1 h2 hb] at hmem
            rcases List.mem_append.mp hmem with hold | hnew
            · exact hInv j' hold
            · rw [List.mem_singleton.mp hnew]
              exact ⟨fun _ => ⟨rfl, rfl⟩, fun _ => rfl, fun hf => by simp at hf⟩
  · intro st client_ip images room_types quality_mode batch_id blobOk hInv j' hmem
    cases hc : check_rate_limits st.counters client_ip images.length with
    | error e =>
      rw [stage_batch_eq_denied hc] at hmem
      exact hInv j' hmem
    | ok u =>
      by_cases h10 : images.length > 10
      · rw [stage_batch_eq_toomany hc h10] at hmem
        exact hInv j' hmem
      · by_cases h0 : images.length = 0
        · rw [stage_batch_eq_empty hc h10 h0] at hmem
          exact hInv j' hmem
        · cases hv : validate_uploads (images.map (·.1)) with
          | error e =>
            rw [stage_batch_eq_badfile hc h10 h0 hv] at hmem
            exact hInv j' hmem
          | ok u2 =>
            rcases herr : (stage_batch_loop blobOk quality_mode room_types batch_id
                images 0 st.images).2.2.2 with _ | e
            · rw [stage_batch_eq_admitted hc h10 h0 hv herr] at hmem
              rcases List.mem_append.mp hmem with hold | hnew
              · exact hInv j' hold
              · obtain ⟨hst, hsp, hca, hem, -, -⟩ := stage_batch_loop_recs_shape blobOk
                  quality_mode room_types batch_id images 0 st.images j' hnew
                refine ⟨fun _ => ⟨hsp, hca⟩, fun _ => hem, fun hf => ?_⟩
                rw [hst] at hf
                simp at hf
            · rw [stage_batch_eq_loopfail hc h10 h0 hv herr] at hmem
              exact hInv j' hmem
  · intro st staging_id configured gw exc pt now hInv hproc hmsg hnofin j' hmem
    rcases hj : findJob st.db staging_id with _ | j
    · have heq : process_staging st staging_id configured gw exc pt now
          = (st, { status := "error", error := some "Staging not found" }, 0) := by
        simp [process_staging, hj]
      rw [heq] at hmem
      exact hInv j' hmem
    · rcases exc with _ | ⟨site, m⟩
      · rcases hsr : AIService.stage_room configured gw st.images staging_id
          with ⟨imgs1, ⟨succ, result, q⟩, g⟩
        cases succ
        · rw [process_staging_eq_failure hj hsr] at hmem
          obtain ⟨y, hy, hj'⟩ := mem_updateJob2 hmem (fun _ => rfl)
          by_cases hid : y.id = staging_id
          · rw [if_pos hid] at hj'
            subst hj'
            have hys : y.status = .processing := hproc y hy hid
            have hyInv := hInv y hy
            have hmsgne : result ≠ "" := ai_stage_room_fail_ne hsr
            refine ⟨fun _ => ?_, fun hne => absurd rfl hne,
              fun _ => ⟨by simp, by simpa using hmsgne⟩⟩
            exact hyInv.1 (by simp [hys])
          · rw [if_neg hid] at hj'
            rw [hj']
            exact hInv y hy
        · rw [process_staging_eq_success hj hsr] at hmem
          obtain ⟨y, hy, hj'⟩ := mem_updateJob2 hmem (fun _ => rfl)
          by_cases hid : y.id = staging_id
          · rw [if_pos hid] at hj'
            subst hj'
            have hys : y.status = .processing := hproc y hy hid
            have hyInv := hInv y hy
            exact ⟨fun hne => absurd rfl hne, fun _ => hyInv.2.1 (by simp [hys]),
              fun hf => by simp at hf⟩
          · rw [if_neg hid] at hj'
            rw [hj']
            exact hInv y hy
      · cases site
        · rw [process_staging_eq_excBefore hj] at hmem
          obtain ⟨y, hy, hj'⟩ := mem_updateJob2 hmem (fun _ => rfl)
          by_cases hid : y.id = staging_id
          · rw [if_pos hid] at hj'
            subst hj'
            have hys : y.status = .processing := hproc y hy hid
            have hyInv := hInv y hy
            refine ⟨fun _ => ?_, fun hne => absurd rfl hne,
              fun _ => ⟨by simp, by simpa using hmsg _ m rfl⟩⟩
            exact hyInv.1 (by simp [hys])
          · rw [if_neg hid] at hj'
            rw [hj']
            exact hInv y hy
        · rw [process_staging_eq_excDuring hj] at hmem
          obtain ⟨y, hy, hj'⟩ := mem_updateJob2 hmem (fun _ => rfl)
          by_cases hid : y.id = staging_id
          · rw [if_pos hid] at hj'
            subst hj'
            have hys : y.status = .processing := hproc y hy hid
            have hyInv := hInv y hy
            refine ⟨fun _ => ?_, fun hne => absurd rfl hne,
              fun _ => ⟨by simp, by simpa using hmsg _ m rfl⟩⟩
            exact hyInv.1 (by simp [hys])
          · rw [if_neg hid] at hj'
            rw [hj']
            exact hInv y hy
        · exact absurd rfl (hnofin m)

/-- C6 amended witness: one processing row with a valid blob, run with no
exception and a failing gateway, keeps the field invariant. -/
theorem C6_field_invariants_witness :
    (let st : SysState :=
      { db := [{ id := "a", status := .processing, original_image_path := "original_a.jpg" }]
        images := { blobs := [(("original", "a"), .img ⟨1024, 768, "RGB"⟩)] }
        counters := {} }
     (∀ j ∈ st.db, JobInvariant j) ∧ (∀ j ∈ st.db, j.id = "a" → j.status = .processing)) ∧
    (let st : SysState :=
      { db := [{ id := "a", status := .processing, original_image_path := "original_a.jpg" }]
        images := { blobs := [(("original", "a"), .img ⟨1024, 768, "RGB"⟩)] }
        counters := {} }
     ∀ j' ∈ (process_staging st "a" true (fun _ => none) none 5 9).1.db, JobInvariant j') :=
  ⟨⟨by decide, by decide⟩,
   C6_field_invariants.2.2.2
    { db := [{ id := "a", status := .processing, original_image_path := "original_a.jpg" }]
      images := { blobs := [(("original", "a"), .img ⟨1024, 768, "RGB"⟩)] }
      counters := {} } "a" true (fun _ => none) none 5 9
    (by decide) (by decide) (fun site m h => by simp at h) (fun m h => by simp at h)⟩

/-! Claims C9 and C10: the image-retrieval route. -/

theorem findJob_mem {db : List Staging} {sid : String} {s : Staging}
    (h : findJob db sid = some s) : s ∈ db :=
  List.mem_of_find?_eq_some h

theorem serve_image_eq_badext {db : List Staging} {b64decode : String → Option Bytes}
    {filename : String}
    (hext : allowed_extensions.contains (str_toLower (splitext_ext filename)) = false) :
    serve_image db b64decode filename = ([], .error ⟨400, "Invalid file type"⟩) := by
  have hext' : ¬ str_toLower (splitext_ext filename) ∈ allowed_extensions := by
    simpa using hext
  simp [serve_image, hext']

theorem serve_image_eq_traversal {db : List Staging} {b64decode : String → Option Bytes}
    {filename : String}
    (hext : allowed_extensions.contains (str_toLower (splitext_ext filename)) = true)
    (htr : listHasInfix "..".toList filename.toList = true ∨
           filename.toList.contains '/' = true ∨ filename.toList.contains '\\' = true) :
    serve_image db b64decode filename = ([], .error ⟨400, "Invalid filename"⟩) := by
  have hext' : str_toLower (splitext_ext filename) ∈ allowed_extensions := by
    simpa using hext
  rcases htr with h | h | h
  · have h' : listHasInfix ['.', '.'] filename.data = true := by simpa using h
    simp [serve_image, hext', h']
  · have h' : '/' ∈ filename.data := by simpa using h
    simp [serve_image, hext', h']
  · have h' : '\\' ∈ filename.data := by simpa using h
    simp [serve_image, hext', h']

theorem serve_image_eq_404 {db : List Staging} {b64decode : String → Option Bytes}
    {filename staging_id image_type : String}
    (hex : extract_staging_id filename = (some staging_id, some image_type))
    (hext : allowed_extensions.contains (str_toLower (splitext_ext filename)) = true)
    (h2 : listHasInfix "..".toList filename.toList = false)
    (h3 : filename.toList.contains '/' = false)
    (h4 : filename.toList.contains '\\' = false)
    (hdata : findJob db staging_id = none ∨
      ∃ s, findJob db staging_id = some s ∧
        ((image_type = "original" ∧
           (s.original_image_data = none ∨ s.original_image_data = some "")) ∨
         (image_type ≠ "original" ∧
           (s.staged_image_data = none ∨ s.staged_image_data = some "")))) :
    serve_image db b64decode filename = ([.dbRead], .error ⟨404, "Image not found"⟩) := by
  have hext' : str_toLower (splitext_ext filename) ∈ allowed_extensions := by
    simpa using hext
  have h2' : listHasInfix ['.', '.'] filename.data = false := by simpa using h2
  have h3' : ¬ '/' ∈ filename.data := by simpa using h3
  have h4' : ¬ '\\' ∈ filename.data := by simpa using h4
  rcases hdata with hnone | ⟨s, hs, hty⟩
  · simp [serve_image, hext', h2', h3', h4', hex, hnone]
  · rcases hty with ⟨hty, hval⟩ | ⟨hty, hval⟩
    · subst hty
      rcases hval with hval | hval <;>
        simp [serve_image, hext', h2', h3', h4', hex, hs, hval]
    · rcases hval with hval | hval <;>
        simp [serve_image, hext', h2', h3', h4', hex, hs, hty, hval]

theorem serve_image_never_ok (db : List Staging) (b64decode : String → Option Bytes)
    (filename : String) (hni : NoInlineData db) :
    ∃ evs e, serve_image db b64decode filename = (evs, .error e) := by
  cases hext : allowed_extensions.contains (str_toLower (splitext_ext filename)) with
  | false => exact ⟨[], _, serve_image_eq_badext hext⟩
  | true =>
    by_cases htr : listHasInfix "..".toList filename.toList = true ∨
        filename.toList.contains '/' = true ∨ filename.toList.contains '\\' = true
    · exact ⟨[], _, serve_image_eq_traversal hext htr⟩
    · push_neg at htr
      obtain ⟨ht1, ht2, ht3⟩ := htr
      have ht1' : listHasInfix "..".toList filename.toList = false :=
        Bool.eq_false_iff.mpr ht1
      have ht2' : filename.toList.contains '/' = false := Bool.eq_false_iff.mpr ht2
      have ht3' : filename.toList.contains '\\' = false := Bool.eq_false_iff.mpr ht3
      have hext' : str_toLower (splitext_ext filename) ∈ allowed_extensions := by
        simpa using hext
      have hd1 : listHasInfix ['.', '.'] filename.data = false := by simpa using ht1'
      have hd2 : ¬ '/' ∈ filename.data := by simpa using ht2'
      have hd3 : ¬ '\\' ∈ filename.data := by simpa using ht3'
      rcases hex : extract_staging_id filename with ⟨osid, oty⟩
      match osid, oty with
      | none, _ =>
        exact ⟨[], ⟨400, "Invalid filename format"⟩,
          by simp [serve_image, hext', hd1, hd2, hd3, hex]⟩
      | some staging_id, none =>
        exact ⟨[], ⟨400, "Invalid filename format"⟩,
          by simp [serve_image, hext', hd1, hd2, hd3, hex]⟩
      | some staging_id, some image_type =>
        rcases hfind : findJob db staging_id with _ | s
        · exact ⟨[.dbRead], _,
            serve_image_eq_404 hex hext ht1' ht2' ht3' (Or.inl hfind)⟩
        · obtain ⟨hno, hns⟩ := hni s (findJob_mem hfind)
          by_cases hty : image_type = "original"
          · exact ⟨[.dbRead], _, serve_image_eq_404 hex hext ht1' ht2' ht3'
              (Or.inr ⟨s, hfind, Or.inl ⟨hty, Or.inl hno⟩⟩)⟩
          · exact ⟨[.dbRead], _, serve_image_eq_404 hex hext ht1' ht2' ht3'
              (Or.inr ⟨s, hfind, Or.inr ⟨hty, Or.inl hns⟩⟩)⟩

theorem noInlineData_updateJob2 {db : List Staging} {sid : String}
    {f1 f2 : Staging → Staging} (hni : NoInlineData db)
    (hf1 : ∀ s, (f1 s).id = s.id)
    (hd : ∀ s, (f2 (f1 s)).original_image_data = s.original_image_data ∧
               (f2 (f1 s)).staged_image_data = s.staged_image_data) :
    NoInlineData (updateJob (updateJob db sid f1) sid f2) := by
  intro j' hmem
  obtain ⟨y, hy, hj'⟩ := mem_updateJob2 hmem hf1
  by_cases hid : y.id = sid
  · rw [if_pos hid] at hj'
    rw [hj']
    obtain ⟨d1, d2⟩ := hd y
    obtain ⟨h1, h2⟩ := hni y hy
    exact ⟨by rw [d1, h1], by rw [d2, h2]⟩
  · rw [if_neg hid] at hj'
    rw [hj']
    exact hni y hy

/-- C9: any filename with a path-traversal character or a non-whitelisted
extension is rejected with a 400 before any database read (no `.dbRead`
event, empty trace); any well-formed reference (prefix, id, allowed
extension, no traversal) whose blob is absent — row missing, column null,
or empty after TTL-style expiry — yields 404 with exactly the one table
read. -/
theorem C9_serve_image_guards :
    (∀ (db : List Staging) (b64decode : String → Option Bytes) (filename : String),
      (allowed_extensions.contains (str_toLower (splitext_ext filename)) = false ∨
       listHasInfix "..".toList filename.toList = true ∨
       filename.toList.contains '/' = true ∨
       filename.toList.contains '\\' = true) →
      ∃ e, serve_image db b64decode filename = ([], .error e) ∧ e.status_code = 400) ∧
    (∀ (db : List Staging) (b64decode : String → Option Bytes)
       (filename staging_id image_type : String),
      extract_staging_id filename = (some staging_id, some image_type) →
      allowed_extensions.contains (str_toLower (splitext_ext filename)) = true →
      listHasInfix "..".toList filename.toList = false →
      filename.toList.contains '/' = false →
      filename.toList.contains '\\' = false →
      (findJob db staging_id = none ∨
       ∃ s, findJob db staging_id = some s ∧
         ((image_type = "original" ∧
            (s.original_image_data = none ∨ s.original_image_data = some "")) ∨
          (image_type ≠ "original" ∧
            (s.staged_image_data = none ∨ s.staged_image_data = some "")))) →
      serve_image db b64decode filename = ([.dbRead], .error ⟨404, "Image not found"⟩)) := by
  constructor
  · intro db b64decode filename h
    cases hext : allowed_extensions.contains (str_toLower (splitext_ext filename)) with
    | false => exact ⟨_, serve_image_eq_badext hext, rfl⟩
    | true =>
      rcases h with h1 | h2 | h3 | h4
      · rw [hext] at h1
        cases h1
      · exact ⟨_, serve_image_eq_traversal hext (Or.inl h2), rfl⟩
      · exact ⟨_, serve_image_eq_traversal hext (Or.inr (Or.inl h3)), rfl⟩
      · exact ⟨_, serve_image_eq_traversal hext (Or.inr (Or.inr h4)), rfl⟩
  · intro db b64decode filename staging_id image_type hex hext h2 h3 h4 hdata
    exact serve_image_eq_404 hex hext h2 h3 h4 hdata

/-- C9 witness: a traversal filename is rejected 400 with no database read;
a well-formed reference whose row lacks blob data yields 404. -/
theorem C9_serve_image_guards_witness :
    ((allowed_extensions.contains (str_toLower (splitext_ext "../x.jpg")) = false ∨
      listHasInfix "..".toList ("../x.jpg").toList = true ∨
      ("../x.jpg").toList.contains '/' = true ∨
      ("../x.jpg").toList.contains '\\' = true) ∧
     (∃ e, serve_image ([] : List Staging) (fun _ => none) "../x.jpg" = ([], .error e) ∧
        e.status_code = 400)) ∧
    (extract_staging_id "original_a.jpg" = (some "a", some "original") ∧
     serve_image [({ id := "a", original_image_path := "original_a.jpg" } : Staging)]
        (fun _ => none) "original_a.jpg" = ([.dbRead], .error ⟨404, "Image not found"⟩)) :=
  ⟨⟨by decide,
    C9_serve_image_guards.1 [] (fun _ => none) "../x.jpg" (by decide)⟩,
   ⟨by decide,
    C9_serve_image_guards.2 [{ id := "a", original_image_path := "original_a.jpg" }]
      (fun _ => none) "original_a.jpg" "a" "original" (by decide) (by decide) (by decide)
      (by decide) (by decide)
      (Or.inr ⟨{ id := "a", original_image_path := "original_a.jpg" }, by decide,
        Or.inl ⟨rfl, Or.inl rfl⟩⟩)⟩⟩

/-- C10 (implicit): the `original_image_data` / `staged_image_data` columns
that `serve_image` reads are never written by any code path — both
submission endpoints and the executor only write blobs to the Redis
`ImageStorage` and the `*_image_path` filename references — so on every
state reachable from an empty table, `serve_image` never succeeds, and for
every well-formed reference to an existing job row it returns 404 "Image
not found" even though the Redis blob may be present and unexpired
(`serve_image` never consults `ImageStorage` at all: it takes only the
rows and the base64 decoder). -/
theorem C10_images_route_always_404 :
    (∀ (st : SysState) (client_ip : String) (image : Upload) (room_type : Option String)
       (quality_mode staging_id : String) (blobOk : String → Bool),
      NoInlineData st.db →
      NoInlineData (stage_room st client_ip image room_type quality_mode
        staging_id blobOk).1.db) ∧
    (∀ (st : SysState) (client_ip : String) (images : List (Upload × String))
       (room_types : List String) (quality_mode batch_id : String) (blobOk : String → Bool),
      NoInlineData st.db →
      NoInlineData (stage_batch st client_ip images room_types quality_mode
        batch_id blobOk).1.db) ∧
    (∀ (st : SysState) (staging_id : String) (configured : Bool)
       (gw : DecodedImage → Option DecodedImage) (exc : Option (ExcSite × String))
       (pt now : Nat),
      NoInlineData st.db →
      NoInlineData (process_staging st staging_id configured gw exc pt now).1.db) ∧
    (∀ (db : List Staging) (b64decode : String → Option Bytes) (filename : String),
      NoInlineData db →
      (∃ evs e, serve_image db b64decode filename = (evs, .error e)) ∧
      (∀ staging_id image_type s,
        extract_staging_id filename = (some staging_id, some image_type) →
        allowed_extensions.contains (str_toLower (splitext_ext filename)) = true →
        listHasInfix "..".toList filename.toList = false →
        filename.toList.contains '/' = false →
        filename.toList.contains '\\' = false →
        findJob db staging_id = some s →
        serve_image db b64decode filename = ([.dbRead], .error ⟨404, "Image not found"⟩))) := by
  refine ⟨?_, ?_, ?_, ?_⟩
  · intro st client_ip image room_type quality_mode staging_id blobOk hni j' hmem
    cases hc : check_rate_limits st.counters client_ip 1 with
    | error e =>
      rw [stage_room_eq_denied hc] at hmem
      exact hni j' hmem
    | ok u =>
      cases h1 : str_startswith image.content_type "image/" with
      | false =>
        rw [stage_room_eq_badtype hc h1] at hmem
        exact hni j' hmem
      | true =>
        by_cases h2 : image.size > max_upload_size
        · rw [stage_room_eq_toolarge hc h1 h2] at hmem
          exact hni j' hmem
        · cases hb : blobOk staging_id with
          | false =>
            rw [stage_room_eq_storefail hc h1 h2 hb] at hmem
            exact hni j' hmem
          | true =>
            rw [stage_room_eq_ok hc h1 h2 hb] at hmem
            rcases List.mem_append.mp hmem with hold | hnew
            · exact hni j' hold
            · rw [List.mem_singleton.mp hnew]
              exact ⟨rfl, rfl⟩
  · intro st client_ip images room_types quality_mode batch_id blobOk hni j' hmem
    cases hc : check_rate_limits st.counters client_ip images.length with
    | error e =>
      rw [stage_batch_eq_denied hc] at hmem
      exact hni j' hmem
    | ok u =>
      by_cases h10 : images.length > 10
      · rw [stage_batch_eq_toomany hc h10] at hmem
        exact hni j' hmem
      · by_cases h0 : images.length = 0
        · rw [stage_batch_eq_empty hc h10 h0] at hmem
          exact hni j' hmem
        · cases hv : validate_uploads (images.map (·.1)) with
          | error e =>
            rw [stage_batch_eq_badfile hc h10 h0 hv] at hmem
            exact hni j' hmem
          | ok u2 =>
            rcases herr : (stage_batch_loop blobOk quality_mode room_types batch_id
                images 0 st.images).2.2.2 with _ | e
            · rw [stage_batch_eq_admitted hc h10 h0 hv herr] at hmem
              rcases List.mem_append.mp hmem with hold | hnew
              · exact hni j' hold
              · obtain ⟨-, -, -, -, hod, hsd⟩ := stage_batch_loop_recs_shape blobOk
                  quality_mode room_types batch_id images 0 st.images j' hnew
                exact ⟨hod, hsd⟩
            · rw [stage_batch_eq_loopfail hc h10 h0 hv herr] at hmem
              exact hni j' hmem
  · intro st staging_id configured gw exc pt now hni
    rcases hj : findJob st.db staging_id with _ | j
    · have heq : process_staging st staging_id configured gw exc pt now
          = (st, { status := "error", error := some "Staging not found" }, 0) := by
        simp [process_staging, hj]
      rw [heq]
      exact hni
    · rcases exc with _ | ⟨site, m⟩
      · rcases hsr : AIService.stage_room configured gw st.images staging_id
          with ⟨imgs1, ⟨succ, result, q⟩, g⟩
        cases succ
        · rw [process_staging_eq_failure hj hsr]
          exact noInlineData_updateJob2 hni (fun _ => rfl) (fun s => ⟨rfl, rfl⟩)
        · rw [process_staging_eq_success hj hsr]
          exact noInlineData_updateJob2 hni (fun _ => rfl) (fun s => ⟨rfl, rfl⟩)
      · cases site
        · rw [process_staging_eq_excBefore hj]
          exact noInlineData_updateJob2 hni (fun _ => rfl) (fun s => ⟨rfl, rfl⟩)
        · rw [process_staging_eq_excDuring hj]
          exact noInlineData_updateJob2 hni (fun _ => rfl) (fun s => ⟨rfl, rfl⟩)
        · rcases hsr : AIService.stage_room configured gw st.images staging_id
            with ⟨imgs1, ⟨succ, result, q⟩, g⟩
          cases succ
          · rw [process_staging_eq_failure_finalizeExc hj hsr]
            exact noInlineData_updateJob2 hni (fun _ => rfl) (fun s => ⟨rfl, rfl⟩)
          · rw [process_staging_eq_finalizeExc hj hsr]
            exact noInlineData_updateJob2 hni (fun _ => rfl) (fun s => ⟨rfl, rfl⟩)
  · intro db b64decode filename hni
    refine ⟨serve_image_never_ok db b64decode filename hni, ?_⟩
    intro staging_id image_type s hex hext h2 h3 h4 hfind
    obtain ⟨hno, hns⟩ := hni s (findJob_mem hfind)
    by_cases hty : image_type = "original"
    · exact serve_image_eq_404 hex hext h2 h3 h4
        (Or.inr ⟨s, hfind, Or.inl ⟨hty, Or.inl hno⟩⟩)
    · exact serve_image_eq_404 hex hext h2 h3 h4
        (Or.inr ⟨s, hfind, Or.inr ⟨hty, Or.inl hns⟩⟩)

/-- C10 witness: a job row as created by submission (path reference set,
data columns null) yields 404 on a well-formed request for its original
image even with the blob present in Redis. -/
theorem C10_images_route_always_404_witness :
    (NoInlineData [({ id := "a", original_image_path := "original_a.jpg" } : Staging)]) ∧
    ((∃ evs e, serve_image
        [({ id := "a", original_image_path := "original_a.jpg" } : Staging)]
        (fun _ => none) "original_a.jpg" = (evs, .error e)) ∧
     (∀ staging_id image_type s,
        extract_staging_id "original_a.jpg" = (some staging_id, some image_type) →
        allowed_extensions.contains (str_toLower (splitext_ext "original_a.jpg")) = true →
        listHasInfix "..".toList ("original_a.jpg").toList = false →
        ("original_a.jpg").toList.contains '/' = false →
        ("original_a.jpg").toList.contains '\\' = false →
        findJob [({ id := "a", original_image_path := "original_a.jpg" } : Staging)]
          staging_id = some s →
        serve_image [({ id := "a", original_image_path := "original_a.jpg" } : Staging)]
          (fun _ => none) "original_a.jpg" = ([.dbRead], .error ⟨404, "Image not found"⟩))) :=
  ⟨by decide,
   C10_images_route_always_404.2.2.2
    [({ id := "a", original_image_path := "original_a.jpg" } : Staging)]
    (fun _ => none) "original_a.jpg" (by decide)⟩

end Stagecraft
